import Mathlib

/-!
# ola/Callback.h: method callbacks with bound and execution-time arguments

A shallow embedding of `include/ola/Callback.h`.

* The store is a list of cells; a pointer is an index into it.  A cell is free storage, a target
  object (the state of an instance of `Class`) or a callback object made by `new`.  `new` places
  an object in a fresh cell at the end of the store; `delete` turns the cell of a callback into
  free storage.
* A pointer to member function `ReturnType (Class::*Method)(...)` is a value of a type `M`; the
  class gives it a meaning through `body : M → Args → C → MethodResult R E C`, which runs the
  selected member function on the state of an object and either returns a value or throws,
  leaving the object in a new state.  The argument list of the call is a tuple, in call order.
  A member function acts on its own object only: it does not reach into the store, so it
  neither runs nor deletes a callback.
* The return type `void` is `Unit`.
* The template argument `Parent` of `MethodCallbackK_N` is kept with the callback object in the
  store: it fixes the dynamic type of the object, hence the `Run` that a virtual call reaches.
* Dereferencing a pointer that does not point to a live cell of the right kind is undefined
  behaviour, `Outcome.undefined`.
* `World.trace` records, in program order, every call made through a pointer to member and every
  `delete` of a callback.
* The overloads of `NewCallback` and `NewSingleCallback` are told apart by a suffix:
  `NewCallbackK_N` is the overload with `K` bound and `N` execution-time arguments.
-/

namespace ola

/-- An address: an index into the store. -/
abbrev Ptr := Nat

/-- The `Parent` template argument of a `MethodCallbackK_N`: the class that supplies `Run`. -/
inductive Parent where
  | Callback
  | SingleUseCallback
  deriving DecidableEq

/-- What a member function of the target class does when it is called on an object. -/
inductive MethodResult (R E C : Type) where
  | returned (ret : R) (state : C)
  | threw (exc : E) (state : C)

/-- One cell of the store. -/
inductive Cell (C Cb : Type) where
  | free
  | object (state : C)
  | callback (parent : Parent) (fields : Cb)

/-- An observable action. -/
inductive Event (M Args : Type) where
  | call (object : Ptr) (method : M) (args : Args)
  | release (p : Ptr)

/-- The program state: the store and the record of the actions performed so far. -/
structure World (C Cb M Args : Type) where
  heap : List (Cell C Cb)
  trace : List (Event M Args)

/-- How a call of `Run` or `DoRun` ends. -/
inductive Outcome (R E W : Type) where
  | returned (ret : R) (w : W)
  | threw (exc : E) (w : W)
  | undefined

section Core

variable {C Cb M Args R E : Type}

/-- The expression `new T(...)`: the object is placed in fresh storage at the end of the store. -/
def World.new (w : World C Cb M Args) (parent : Parent) (fields : Cb) :
    Ptr × World C Cb M Args :=
  (w.heap.length, ⟨w.heap ++ [Cell.callback parent fields], w.trace⟩)

/-- The expression `delete p` for a pointer to a callback: the storage of the callback is given
back.  Deleting anything but a live callback is undefined (`none`). -/
def World.delete (w : World C Cb M Args) (p : Ptr) : Option (World C Cb M Args) :=
  match w.heap[p]? with
  | some (Cell.callback _ _) => some ⟨w.heap.set p Cell.free, w.trace ++ [Event.release p]⟩
  | _ => none

/-- The expression `(object->*method)(args...)`. -/
def invoke (body : M → Args → C → MethodResult R E C) (object : Ptr) (method : M)
    (args : Args) (w : World C Cb M Args) : Outcome R E (World C Cb M Args) :=
  match w.heap[object]? with
  | some (Cell.object s) =>
    match body method args s with
    | MethodResult.returned ret s' =>
      Outcome.returned ret
        ⟨w.heap.set object (Cell.object s'), w.trace ++ [Event.call object method args]⟩
    | MethodResult.threw exc s' =>
      Outcome.threw exc
        ⟨w.heap.set object (Cell.object s'), w.trace ++ [Event.call object method args]⟩
  | _ => Outcome.undefined

end Core

/-! ## 1 argument callbacks -/

section Arity1

variable {C Cb M Args R E Arg0 : Type}

/-- Member function `Callback1::Run`: `return DoRun(arg0);` -/
def Callback1.Run
    (DoRun : Ptr → Arg0 → World C Cb M Args →
      Outcome R E (World C Cb M Args))
    (this : Ptr) (arg0 : Arg0) (w : World C Cb M Args) :
    Outcome R E (World C Cb M Args) :=
  DoRun this arg0 w

/-- Member function `SingleUseCallback1::Run`:
`ReturnType ret = DoRun(arg0); delete this; return ret;` -/
def SingleUseCallback1.Run
    (DoRun : Ptr → Arg0 → World C Cb M Args →
      Outcome R E (World C Cb M Args))
    (this : Ptr) (arg0 : Arg0) (w : World C Cb M Args) :
    Outcome R E (World C Cb M Args) :=
  match DoRun this arg0 w with
  | Outcome.returned ret w1 =>
    match w1.delete this with
    | some w2 => Outcome.returned ret w2
    | none => Outcome.undefined
  | Outcome.threw exc w1 => Outcome.threw exc w1
  | Outcome.undefined => Outcome.undefined

/-- Member function `SingleUseCallback1<void, ...>::Run`:
`DoRun(arg0); delete this;` -/
def SingleUseCallback1_void.Run
    (DoRun : Ptr → Arg0 → World C Cb M Args →
      Outcome Unit E (World C Cb M Args))
    (this : Ptr) (arg0 : Arg0) (w : World C Cb M Args) :
    Outcome Unit E (World C Cb M Args) :=
  match DoRun this arg0 w with
  | Outcome.returned _ w1 =>
    match w1.delete this with
    | some w2 => Outcome.returned () w2
    | none => Outcome.undefined
  | Outcome.threw exc w1 => Outcome.threw exc w1
  | Outcome.undefined => Outcome.undefined

/-- The virtual call `cb->Run(arg0)` on a `BaseCallback1*` whose return type
is not `void`: the dynamic type of `*cb` selects the `Run` of its `Parent`. -/
def BaseCallback1.Run
    (DoRun : Ptr → Arg0 → World C Cb M Args →
      Outcome R E (World C Cb M Args))
    (this : Ptr) (arg0 : Arg0) (w : World C Cb M Args) :
    Outcome R E (World C Cb M Args) :=
  match w.heap[this]? with
  | some (Cell.callback Parent.Callback _) => Callback1.Run DoRun this arg0 w
  | some (Cell.callback Parent.SingleUseCallback _) =>
    SingleUseCallback1.Run DoRun this arg0 w
  | _ => Outcome.undefined

/-- The virtual call `cb->Run(arg0)` on a `BaseCallback1*` whose return type
is `void`: a single use callback is then an instance of the specialization
`SingleUseCallback1<void, ...>`. -/
def BaseCallback1_void.Run
    (DoRun : Ptr → Arg0 → World C Cb M Args →
      Outcome Unit E (World C Cb M Args))
    (this : Ptr) (arg0 : Arg0) (w : World C Cb M Args) :
    Outcome Unit E (World C Cb M Args) :=
  match w.heap[this]? with
  | some (Cell.callback Parent.Callback _) => Callback1.Run DoRun this arg0 w
  | some (Cell.callback Parent.SingleUseCallback _) =>
    SingleUseCallback1_void.Run DoRun this arg0 w
  | _ => Outcome.undefined

end Arity1

section MethodCallback0_1

/-- The data members of `MethodCallback0_1`. -/
structure MethodCallback0_1 (M : Type) where
  m_object : Ptr
  m_callback : M

variable {C M R E Arg0 : Type}

/-- Member function `MethodCallback0_1::DoRun`:
`return (m_object->*m_callback)(arg0);` -/
def MethodCallback0_1.DoRun (body : M → Arg0 → C → MethodResult R E C)
    (this : Ptr) (arg0 : Arg0)
    (w : World C (MethodCallback0_1 M) M Arg0) :
    Outcome R E (World C (MethodCallback0_1 M) M Arg0) :=
  match w.heap[this]? with
  | some (Cell.callback _ cb) =>
    invoke body cb.m_object cb.m_callback arg0 w
  | _ => Outcome.undefined

/-- The factory `NewSingleCallback(object, method)`
for a method taking `(Arg0)`. -/
def NewSingleCallback0_1
    (w : World C (MethodCallback0_1 M) M Arg0)
    (object : Ptr) (method : M) :
    Ptr × World C (MethodCallback0_1 M) M Arg0 :=
  w.new Parent.SingleUseCallback ⟨object, method⟩

/-- The factory `NewCallback(object, method)`
for a method taking `(Arg0)`. -/
def NewCallback0_1
    (w : World C (MethodCallback0_1 M) M Arg0)
    (object : Ptr) (method : M) :
    Ptr × World C (MethodCallback0_1 M) M Arg0 :=
  w.new Parent.Callback ⟨object, method⟩

end MethodCallback0_1

section MethodCallback1_1

/-- The data members of `MethodCallback1_1`. -/
structure MethodCallback1_1 (M A0 : Type) where
  m_object : Ptr
  m_callback : M
  m_a0 : A0

variable {C M R E A0 Arg0 : Type}

/-- Member function `MethodCallback1_1::DoRun`:
`return (m_object->*m_callback)(m_a0, arg0);` -/
def MethodCallback1_1.DoRun (body : M → A0 × Arg0 → C → MethodResult R E C)
    (this : Ptr) (arg0 : Arg0)
    (w : World C (MethodCallback1_1 M A0) M (A0 × Arg0)) :
    Outcome R E (World C (MethodCallback1_1 M A0) M (A0 × Arg0)) :=
  match w.heap[this]? with
  | some (Cell.callback _ cb) =>
    invoke body cb.m_object cb.m_callback (cb.m_a0, arg0) w
  | _ => Outcome.undefined

/-- The factory `NewSingleCallback(object, method, a0)`
for a method taking `(A0, Arg0)`. -/
def NewSingleCallback1_1
    (w : World C (MethodCallback1_1 M A0) M (A0 × Arg0))
    (object : Ptr) (method : M) (a0 : A0) :
    Ptr × World C (MethodCallback1_1 M A0) M (A0 × Arg0) :=
  w.new Parent.SingleUseCallback ⟨object, method, a0⟩

/-- The factory `NewCallback(object, method, a0)`
for a method taking `(A0, Arg0)`. -/
def NewCallback1_1
    (w : World C (MethodCallback1_1 M A0) M (A0 × Arg0))
    (object : Ptr) (method : M) (a0 : A0) :
    Ptr × World C (MethodCallback1_1 M A0) M (A0 × Arg0) :=
  w.new Parent.Callback ⟨object, method, a0⟩

end MethodCallback1_1

section MethodCallback2_1

/-- The data members of `MethodCallback2_1`. -/
structure MethodCallback2_1 (M A0 A1 : Type) where
  m_object : Ptr
  m_callback : M
  m_a0 : A0
  m_a1 : A1

variable {C M R E A0 A1 Arg0 : Type}

/-- Member function `MethodCallback2_1::DoRun`:
`return (m_object->*m_callback)(m_a0, m_a1, arg0);` -/
def MethodCallback2_1.DoRun (body : M → A0 × A1 × Arg0 → C → MethodResult R E C)
    (this : Ptr) (arg0 : Arg0)
    (w : World C (MethodCallback2_1 M A0 A1) M (A0 × A1 × Arg0)) :
    Outcome R E (World C (MethodCallback2_1 M A0 A1) M (A0 × A1 × Arg0)) :=
  match w.heap[this]? with
  | some (Cell.callback _ cb) =>
    invoke body cb.m_object cb.m_callback (cb.m_a0, cb.m_a1, arg0) w
  | _ => Outcome.undefined

/-- The factory `NewSingleCallback(object, method, a0, a1)`
for a method taking `(A0, A1, Arg0)`. -/
def NewSingleCallback2_1
    (w : World C (MethodCallback2_1 M A0 A1) M (A0 × A1 × Arg0))
    (object : Ptr) (method : M) (a0 : A0) (a1 : A1) :
    Ptr × World C (MethodCallback2_1 M A0 A1) M (A0 × A1 × Arg0) :=
  w.new Parent.SingleUseCallback ⟨object, method, a0, a1⟩

/-- The factory `NewCallback(object, method, a0, a1)`
for a method taking `(A0, A1, Arg0)`. -/
def NewCallback2_1
    (w : World C (MethodCallback2_1 M A0 A1) M (A0 × A1 × Arg0))
    (object : Ptr) (method : M) (a0 : A0) (a1 : A1) :
    Ptr × World C (MethodCallback2_1 M A0 A1) M (A0 × A1 × Arg0) :=
  w.new Parent.Callback ⟨object, method, a0, a1⟩

end MethodCallback2_1

section MethodCallback3_1

/-- The data members of `MethodCallback3_1`. -/
structure MethodCallback3_1 (M A0 A1 A2 : Type) where
  m_object : Ptr
  m_callback : M
  m_a0 : A0
  m_a1 : A1
  m_a2 : A2

variable {C M R E A0 A1 A2 Arg0 : Type}

/-- Member function `MethodCallback3_1::DoRun`:
`return (m_object->*m_callback)(m_a0, m_a1, m_a2, arg0);` -/
def MethodCallback3_1.DoRun (body : M → A0 × A1 × A2 × Arg0 → C → MethodResult R E C)
    (this : Ptr) (arg0 : Arg0)
    (w : World C (MethodCallback3_1 M A0 A1 A2) M (A0 × A1 × A2 × Arg0)) :
    Outcome R E (World C (MethodCallback3_1 M A0 A1 A2) M (A0 × A1 × A2 × Arg0)) :=
  match w.heap[this]? with
  | some (Cell.callback _ cb) =>
    invoke body cb.m_object cb.m_callback (cb.m_a0, cb.m_a1, cb.m_a2, arg0) w
  | _ => Outcome.undefined

/-- The factory `NewSingleCallback(object, method, a0, a1, a2)`
for a method taking `(A0, A1, A2, Arg0)`. -/
def NewSingleCallback3_1
    (w : World C (MethodCallback3_1 M A0 A1 A2) M (A0 × A1 × A2 × Arg0))
    (object : Ptr) (method : M) (a0 : A0) (a1 : A1) (a2 : A2) :
    Ptr × World C (MethodCallback3_1 M A0 A1 A2) M (A0 × A1 × A2 × Arg0) :=
  w.new Parent.SingleUseCallback ⟨object, method, a0, a1, a2⟩

/-- The factory `NewCallback(object, method, a0, a1, a2)`
for a method taking `(A0, A1, A2, Arg0)`. -/
def NewCallback3_1
    (w : World C (MethodCallback3_1 M A0 A1 A2) M (A0 × A1 × A2 × Arg0))
    (object : Ptr) (method : M) (a0 : A0) (a1 : A1) (a2 : A2) :
    Ptr × World C (MethodCallback3_1 M A0 A1 A2) M (A0 × A1 × A2 × Arg0) :=
  w.new Parent.Callback ⟨object, method, a0, a1, a2⟩

end MethodCallback3_1

/-! ## 2 argument callbacks -/

section Arity2

variable {C Cb M Args R E Arg0 Arg1 : Type}

/-- Member function `Callback2::Run`: `return DoRun(arg0, arg1);` -/
def Callback2.Run
    (DoRun : Ptr → Arg0 → Arg1 → World C Cb M Args →
      Outcome R E (World C Cb M Args))
    (this : Ptr) (arg0 : Arg0) (arg1 : Arg1) (w : World C Cb M Args) :
    Outcome R E (World C Cb M Args) :=
  DoRun this arg0 arg1 w

/-- Member function `SingleUseCallback2::Run`:
`ReturnType ret = DoRun(arg0, arg1); delete this; return ret;` -/
def SingleUseCallback2.Run
    (DoRun : Ptr → Arg0 → Arg1 → World C Cb M Args →
      Outcome R E (World C Cb M Args))
    (this : Ptr) (arg0 : Arg0) (arg1 : Arg1) (w : World C Cb M Args) :
    Outcome R E (World C Cb M Args) :=
  match DoRun this arg0 arg1 w with
  | Outcome.returned ret w1 =>
    match w1.delete this with
    | some w2 => Outcome.returned ret w2
    | none => Outcome.undefined
  | Outcome.threw exc w1 => Outcome.threw exc w1
  | Outcome.undefined => Outcome.undefined

/-- Member function `SingleUseCallback2<void, ...>::Run`:
`DoRun(arg0, arg1); delete this;` -/
def SingleUseCallback2_void.Run
    (DoRun : Ptr → Arg0 → Arg1 → World C Cb M Args →
      Outcome Unit E (World C Cb M Args))
    (this : Ptr) (arg0 : Arg0) (arg1 : Arg1) (w : World C Cb M Args) :
    Outcome Unit E (World C Cb M Args) :=
  match DoRun this arg0 arg1 w with
  | Outcome.returned _ w1 =>
    match w1.delete this with
    | some w2 => Outcome.returned () w2
    | none => Outcome.undefined
  | Outcome.threw exc w1 => Outcome.threw exc w1
  | Outcome.undefined => Outcome.undefined

/-- The virtual call `cb->Run(arg0, arg1)` on a `BaseCallback2*` whose return type
is not `void`: the dynamic type of `*cb` selects the `Run` of its `Parent`. -/
def BaseCallback2.Run
    (DoRun : Ptr → Arg0 → Arg1 → World C Cb M Args →
      Outcome R E (World C Cb M Args))
    (this : Ptr) (arg0 : Arg0) (arg1 : Arg1) (w : World C Cb M Args) :
    Outcome R E (World C Cb M Args) :=
  match w.heap[this]? with
  | some (Cell.callback Parent.Callback _) => Callback2.Run DoRun this arg0 arg1 w
  | some (Cell.callback Parent.SingleUseCallback _) =>
    SingleUseCallback2.Run DoRun this arg0 arg1 w
  | _ => Outcome.undefined

/-- The virtual call `cb->Run(arg0, arg1)` on a `BaseCallback2*` whose return type
is `void`: a single use callback is then an instance of the specialization
`SingleUseCallback2<void, ...>`. -/
def BaseCallback2_void.Run
    (DoRun : Ptr → Arg0 → Arg1 → World C Cb M Args →
      Outcome Unit E (World C Cb M Args))
    (this : Ptr) (arg0 : Arg0) (arg1 : Arg1) (w : World C Cb M Args) :
    Outcome Unit E (World C Cb M Args) :=
  match w.heap[this]? with
  | some (Cell.callback Parent.Callback _) => Callback2.Run DoRun this arg0 arg1 w
  | some (Cell.callback Parent.SingleUseCallback _) =>
    SingleUseCallback2_void.Run DoRun this arg0 arg1 w
  | _ => Outcome.undefined

end Arity2

section MethodCallback0_2

/-- The data members of `MethodCallback0_2`. -/
structure MethodCallback0_2 (M : Type) where
  m_object : Ptr
  m_callback : M

variable {C M R E Arg0 Arg1 : Type}

/-- Member function `MethodCallback0_2::DoRun`:
`return (m_object->*m_callback)(arg0, arg1);` -/
def MethodCallback0_2.DoRun (body : M → Arg0 × Arg1 → C → MethodResult R E C)
    (this : Ptr) (arg0 : Arg0) (arg1 : Arg1)
    (w : World C (MethodCallback0_2 M) M (Arg0 × Arg1)) :
    Outcome R E (World C (MethodCallback0_2 M) M (Arg0 × Arg1)) :=
  match w.heap[this]? with
  | some (Cell.callback _ cb) =>
    invoke body cb.m_object cb.m_callback (arg0, arg1) w
  | _ => Outcome.undefined

/-- The factory `NewSingleCallback(object, method)`
for a method taking `(Arg0, Arg1)`. -/
def NewSingleCallback0_2
    (w : World C (MethodCallback0_2 M) M (Arg0 × Arg1))
    (object : Ptr) (method : M) :
    Ptr × World C (MethodCallback0_2 M) M (Arg0 × Arg1) :=
  w.new Parent.SingleUseCallback ⟨object, method⟩

/-- The factory `NewCallback(object, method)`
for a method taking `(Arg0, Arg1)`. -/
def NewCallback0_2
    (w : World C (MethodCallback0_2 M) M (Arg0 × Arg1))
    (object : Ptr) (method : M) :
    Ptr × World C (MethodCallback0_2 M) M (Arg0 × Arg1) :=
  w.new Parent.Callback ⟨object, method⟩

end MethodCallback0_2

section MethodCallback1_2

/-- The data members of `MethodCallback1_2`. -/
structure MethodCallback1_2 (M A0 : Type) where
  m_object : Ptr
  m_callback : M
  m_a0 : A0

variable {C M R E A0 Arg0 Arg1 : Type}

/-- Member function `MethodCallback1_2::DoRun`:
`return (m_object->*m_callback)(m_a0, arg0, arg1);` -/
def MethodCallback1_2.DoRun (body : M → A0 × Arg0 × Arg1 → C → MethodResult R E C)
    (this : Ptr) (arg0 : Arg0) (arg1 : Arg1)
    (w : World C (MethodCallback1_2 M A0) M (A0 × Arg0 × Arg1)) :
    Outcome R E (World C (MethodCallback1_2 M A0) M (A0 × Arg0 × Arg1)) :=
  match w.heap[this]? with
  | some (Cell.callback _ cb) =>
    invoke body cb.m_object cb.m_callback (cb.m_a0, arg0, arg1) w
  | _ => Outcome.undefined

/-- The factory `NewSingleCallback(object, method, a0)`
for a method taking `(A0, Arg0, Arg1)`. -/
def NewSingleCallback1_2
    (w : World C (MethodCallback1_2 M A0) M (A0 × Arg0 × Arg1))
    (object : Ptr) (method : M) (a0 : A0) :
    Ptr × World C (MethodCallback1_2 M A0) M (A0 × Arg0 × Arg1) :=
  w.new Parent.SingleUseCallback ⟨object, method, a0⟩

/-- The factory `NewCallback(object, method, a0)`
for a method taking `(A0, Arg0, Arg1)`. -/
def NewCallback1_2
    (w : World C (MethodCallback1_2 M A0) M (A0 × Arg0 × Arg1))
    (object : Ptr) (method : M) (a0 : A0) :
    Ptr × World C (MethodCallback1_2 M A0) M (A0 × Arg0 × Arg1) :=
  w.new Parent.Callback ⟨object, method, a0⟩

end MethodCallback1_2

/-! ## 4 argument callbacks -/

section Arity4

variable {C Cb M Args R E Arg0 Arg1 Arg2 Arg3 : Type}

/-- Member function `Callback4::Run`: `return DoRun(arg0, arg1, arg2, arg3);` -/
def Callback4.Run
    (DoRun : Ptr → Arg0 → Arg1 → Arg2 → Arg3 → World C Cb M Args →
      Outcome R E (World C Cb M Args))
    (this : Ptr) (arg0 : Arg0) (arg1 : Arg1) (arg2 : Arg2) (arg3 : Arg3) (w : World C Cb M Args) :
    Outcome R E (World C Cb M Args) :=
  DoRun this arg0 arg1 arg2 arg3 w

/-- Member function `SingleUseCallback4::Run`:
`ReturnType ret = DoRun(arg0, arg1, arg2, arg3); delete this; return ret;` -/
def SingleUseCallback4.Run
    (DoRun : Ptr → Arg0 → Arg1 → Arg2 → Arg3 → World C Cb M Args →
      Outcome R E (World C Cb M Args))
    (this : Ptr) (arg0 : Arg0) (arg1 : Arg1) (arg2 : Arg2) (arg3 : Arg3) (w : World C Cb M Args) :
    Outcome R E (World C Cb M Args) :=
  match DoRun this arg0 arg1 arg2 arg3 w with
  | Outcome.returned ret w1 =>
    match w1.delete this with
    | some w2 => Outcome.returned ret w2
    | none => Outcome.undefined
  | Outcome.threw exc w1 => Outcome.threw exc w1
  | Outcome.undefined => Outcome.undefined

/-- Member function `SingleUseCallback4<void, ...>::Run`:
`DoRun(arg0, arg1, arg2, arg3); delete this;` -/
def SingleUseCallback4_void.Run
    (DoRun : Ptr → Arg0 → Arg1 → Arg2 → Arg3 → World C Cb M Args →
      Outcome Unit E (World C Cb M Args))
    (this : Ptr) (arg0 : Arg0) (arg1 : Arg1) (arg2 : Arg2) (arg3 : Arg3) (w : World C Cb M Args) :
    Outcome Unit E (World C Cb M Args) :=
  match DoRun this arg0 arg1 arg2 arg3 w with
  | Outcome.returned _ w1 =>
    match w1.delete this with
    | some w2 => Outcome.returned () w2
    | none => Outcome.undefined
  | Outcome.threw exc w1 => Outcome.threw exc w1
  | Outcome.undefined => Outcome.undefined

/-- The virtual call `cb->Run(arg0, arg1, arg2, arg3)` on a `BaseCallback4*` whose return type
is not `void`: the dynamic type of `*cb` selects the `Run` of its `Parent`. -/
def BaseCallback4.Run
    (DoRun : Ptr → Arg0 → Arg1 → Arg2 → Arg3 → World C Cb M Args →
      Outcome R E (World C Cb M Args))
    (this : Ptr) (arg0 : Arg0) (arg1 : Arg1) (arg2 : Arg2) (arg3 : Arg3) (w : World C Cb M Args) :
    Outcome R E (World C Cb M Args) :=
  match w.heap[this]? with
  | some (Cell.callback Parent.Callback _) => Callback4.Run DoRun this arg0 arg1 arg2 arg3 w
  | some (Cell.callback Parent.SingleUseCallback _) =>
    SingleUseCallback4.Run DoRun this arg0 arg1 arg2 arg3 w
  | _ => Outcome.undefined

/-- The virtual call `cb->Run(arg0, arg1, arg2, arg3)` on a `BaseCallback4*` whose return type
is `void`: a single use callback is then an instance of the specialization
`SingleUseCallback4<void, ...>`. -/
def BaseCallback4_void.Run
    (DoRun : Ptr → Arg0 → Arg1 → Arg2 → Arg3 → World C Cb M Args →
      Outcome Unit E (World C Cb M Args))
    (this : Ptr) (arg0 : Arg0) (arg1 : Arg1) (arg2 : Arg2) (arg3 : Arg3) (w : World C Cb M Args) :
    Outcome Unit E (World C Cb M Args) :=
  match w.heap[this]? with
  | some (Cell.callback Parent.Callback _) => Callback4.Run DoRun this arg0 arg1 arg2 arg3 w
  | some (Cell.callback Parent.SingleUseCallback _) =>
    SingleUseCallback4_void.Run DoRun this arg0 arg1 arg2 arg3 w
  | _ => Outcome.undefined

end Arity4

section MethodCallback0_4

/-- The data members of `MethodCallback0_4`. -/
structure MethodCallback0_4 (M : Type) where
  m_object : Ptr
  m_callback : M

variable {C M R E Arg0 Arg1 Arg2 Arg3 : Type}

/-- Member function `MethodCallback0_4::DoRun`:
`return (m_object->*m_callback)(arg0, arg1, arg2, arg3);` -/
def MethodCallback0_4.DoRun (body : M → Arg0 × Arg1 × Arg2 × Arg3 → C → MethodResult R E C)
    (this : Ptr) (arg0 : Arg0) (arg1 : Arg1) (arg2 : Arg2) (arg3 : Arg3)
    (w : World C (MethodCallback0_4 M) M (Arg0 × Arg1 × Arg2 × Arg3)) :
    Outcome R E (World C (MethodCallback0_4 M) M (Arg0 × Arg1 × Arg2 × Arg3)) :=
  match w.heap[this]? with
  | some (Cell.callback _ cb) =>
    invoke body cb.m_object cb.m_callback (arg0, arg1, arg2, arg3) w
  | _ => Outcome.undefined

/-- The factory `NewSingleCallback(object, method)`
for a method taking `(Arg0, Arg1, Arg2, Arg3)`. -/
def NewSingleCallback0_4
    (w : World C (MethodCallback0_4 M) M (Arg0 × Arg1 × Arg2 × Arg3))
    (object : Ptr) (method : M) :
    Ptr × World C (MethodCallback0_4 M) M (Arg0 × Arg1 × Arg2 × Arg3) :=
  w.new Parent.SingleUseCallback ⟨object, method⟩

/-- The factory `NewCallback(object, method)`
for a method taking `(Arg0, Arg1, Arg2, Arg3)`. -/
def NewCallback0_4
    (w : World C (MethodCallback0_4 M) M (Arg0 × Arg1 × Arg2 × Arg3))
    (object : Ptr) (method : M) :
    Ptr × World C (MethodCallback0_4 M) M (Arg0 × Arg1 × Arg2 × Arg3) :=
  w.new Parent.Callback ⟨object, method⟩

end MethodCallback0_4

/-! ## Vocabulary of the specification

Callers (sequences of calls), projections of the record of actions, and the properties of one
adapter class that the theorems below establish for each supported combination.  In these
properties `create` is a factory applied to its arguments, `run` the public entry point and
`doRun` the internal one, `object`, `method` and `args` the target, the bound method and the
argument list that the method is expected to receive. -/

section Vocabulary

variable {C Cb M Args R E X : Type}

/-- The world in which a call ended, when it ended at all. -/
def Outcome.world? {W : Type} : Outcome R E W → Option W
  | Outcome.returned _ w => some w
  | Outcome.threw _ w => some w
  | Outcome.undefined => none

/-- The state in which a member function left its object. -/
def MethodResult.state : MethodResult R E C → C
  | MethodResult.returned _ s => s
  | MethodResult.threw _ s => s

/-- The calls made so far: target, method and argument list of each, oldest first. -/
def World.calls (w : World C Cb M Args) : List (Ptr × M × Args) :=
  w.trace.filterMap fun ev =>
    match ev with
    | Event.call o m a => some (o, m, a)
    | Event.release _ => none

/-- The callbacks deleted so far, oldest first. -/
def World.releases (w : World C Cb M Args) : List Ptr :=
  w.trace.filterMap fun ev =>
    match ev with
    | Event.call _ _ _ => none
    | Event.release p => some p

/-- What the `Run` of the class `parent` makes of the outcome of `DoRun`. -/
def Parent.finish (parent : Parent) (this : Ptr) (out : Outcome R E (World C Cb M Args)) :
    Outcome R E (World C Cb M Args) :=
  match parent, out with
  | Parent.Callback, out => out
  | Parent.SingleUseCallback, Outcome.returned ret w1 =>
    match w1.delete this with
    | some w2 => Outcome.returned ret w2
    | none => Outcome.undefined
  | Parent.SingleUseCallback, Outcome.threw exc w1 => Outcome.threw exc w1
  | Parent.SingleUseCallback, Outcome.undefined => Outcome.undefined

/-- A caller that runs a callback once for each element of `xs`, in order, and collects the
values returned; it stops at the first call that throws. -/
def runSeq {W : Type} (run : X → W → Outcome R E W) : List X → W → Outcome (List R) E W
  | [], w => Outcome.returned [] w
  | x :: xs, w =>
    match run x w with
    | Outcome.returned r w1 =>
      match runSeq run xs w1 with
      | Outcome.returned rs w2 => Outcome.returned (r :: rs) w2
      | Outcome.threw exc w2 => Outcome.threw exc w2
      | Outcome.undefined => Outcome.undefined
    | Outcome.threw exc w1 => Outcome.threw exc w1
    | Outcome.undefined => Outcome.undefined

/-- The member function called directly on an object once for each element of `xs`, in order,
with the argument list `args x`: the values it returns and the state it leaves. -/
def callSeq (body : M → Args → C → MethodResult R E C) (method : M) (args : X → Args) :
    List X → C → MethodResult (List R) E C
  | [], s => MethodResult.returned [] s
  | x :: xs, s =>
    match body method (args x) s with
    | MethodResult.returned r s1 =>
      match callSeq body method args xs s1 with
      | MethodResult.returned rs s2 => MethodResult.returned (r :: rs) s2
      | MethodResult.threw exc s2 => MethodResult.threw exc s2
    | MethodResult.threw exc s1 => MethodResult.threw exc s1

/-- One use of an adapter by its holder. -/
inductive Op (X : Type) where
  | Run (x : X)
  | DoRun (x : X)

/-- A holder that performs the operations `ops` in order, going on after a call that throws;
`none` when one of them is undefined. -/
def execOps {W : Type} (run doRun : X → W → Outcome R E W) : List (Op X) → W → Option W
  | [], w => some w
  | Op.Run x :: ops, w =>
    match (run x w).world? with
    | some w1 => execOps run doRun ops w1
    | none => none
  | Op.DoRun x :: ops, w =>
    match (doRun x w).world? with
    | some w1 => execOps run doRun ops w1
    | none => none

/-- The adapter class with entry points `run` and `doRun` behaves, on a callback holding the data
members `fields`, as a call of `method` on `object` with the argument list `args x`, followed
by what its `Parent` does; on released storage both entry points are undefined. -/
structure Models (body : M → Args → C → MethodResult R E C) (fields : Cb)
    (run doRun : Ptr → X → World C Cb M Args → Outcome R E (World C Cb M Args))
    (object : Ptr) (method : M) (args : X → Args) : Prop where
  doRun_eq : ∀ (parent : Parent) (w : World C Cb M Args) (p : Ptr) (x : X),
    w.heap[p]? = some (Cell.callback parent fields) →
      doRun p x w = invoke body object method (args x) w
  run_eq : ∀ (parent : Parent) (w : World C Cb M Args) (p : Ptr) (x : X),
    w.heap[p]? = some (Cell.callback parent fields) →
      run p x w = parent.finish p (invoke body object method (args x) w)
  doRun_free : ∀ (w : World C Cb M Args) (p : Ptr) (x : X),
    w.heap[p]? = some Cell.free → doRun p x w = Outcome.undefined
  run_free : ∀ (w : World C Cb M Args) (p : Ptr) (x : X),
    w.heap[p]? = some Cell.free → run p x w = Outcome.undefined

/-- Run of the adapter made by `create` calls `method` on `object` with exactly the argument
list `args` and returns what the method returned.  The adapter may be run in any later world
`w` in which its storage is as `create` left it. -/
def ForwardsCall (body : M → Args → C → MethodResult R E C)
    (create : World C Cb M Args → Ptr × World C Cb M Args)
    (run : Ptr → World C Cb M Args → Outcome R E (World C Cb M Args))
    (object : Ptr) (method : M) (args : Args) : Prop :=
  ∀ (w0 w : World C Cb M Args) (s s' : C) (r : R),
    w.heap[(create w0).1]? = (create w0).2.heap[(create w0).1]? →
    w.heap[object]? = some (Cell.object s) →
    body method args s = MethodResult.returned r s' →
    ∃ w', run (create w0).1 w = Outcome.returned r w' ∧
      w'.calls = w.calls ++ [(object, method, args)]

/-- A repeatable adapter made by `create`, run once for each element of `xs`: after the first
`k` runs, for every `k`, the runs have returned the first `k` results of the method, the record
of actions has grown by exactly the calls `method (args x)` for the first `k` elements `x` (and
by no release), and the storage of the adapter is as `create` left it.  After all of them the
target is in the state in which the calls of the method left it. -/
def RepeatableSpec (body : M → Args → C → MethodResult R E C)
    (create : World C Cb M Args → Ptr × World C Cb M Args)
    (run : Ptr → X → World C Cb M Args → Outcome R E (World C Cb M Args))
    (object : Ptr) (method : M) (args : X → Args) : Prop :=
  ∀ (w0 w : World C Cb M Args) (xs : List X) (s s' : C) (rs : List R),
    w.heap[(create w0).1]? = (create w0).2.heap[(create w0).1]? →
    w.heap[object]? = some (Cell.object s) →
    callSeq body method args xs s = MethodResult.returned rs s' →
    rs.length = xs.length ∧
    (∀ k : Nat, ∃ wk,
      runSeq (run (create w0).1) (xs.take k) w = Outcome.returned (rs.take k) wk ∧
      wk.trace = w.trace ++ (xs.take k).map (fun x => Event.call object method (args x)) ∧
      wk.heap[(create w0).1]? = (create w0).2.heap[(create w0).1]?) ∧
    ∃ w', runSeq (run (create w0).1) xs w = Outcome.returned rs w' ∧
      w'.heap[object]? = some (Cell.object s')

/-- A single use adapter made by `create`, when the method returns normally: `Run` returns the
value of the method; the record of actions grows by the call of the method followed by the
release of the adapter and by nothing else; the storage of the adapter is free when `Run`
returns.  (No step of `Run` was undefined, so nothing read the adapter after its release.) -/
def SingleUseSpec (body : M → Args → C → MethodResult R E C)
    (create : World C Cb M Args → Ptr × World C Cb M Args)
    (run : Ptr → World C Cb M Args → Outcome R E (World C Cb M Args))
    (object : Ptr) (method : M) (args : Args) : Prop :=
  ∀ (w0 w : World C Cb M Args) (s s' : C) (r : R),
    w.heap[(create w0).1]? = (create w0).2.heap[(create w0).1]? →
    w.heap[object]? = some (Cell.object s) →
    body method args s = MethodResult.returned r s' →
    ∃ w', run (create w0).1 w = Outcome.returned r w' ∧
      w'.trace = w.trace ++ [Event.call object method args, Event.release (create w0).1] ∧
      w'.heap[(create w0).1]? = some Cell.free

/-- A single use adapter with return type `void`, when the method returns normally: as
`SingleUseSpec`, with nothing returned, and the adapter cannot be run again. -/
def SingleUseVoidSpec (body : M → Args → C → MethodResult Unit E C)
    (create : World C Cb M Args → Ptr × World C Cb M Args)
    (run : Ptr → World C Cb M Args → Outcome Unit E (World C Cb M Args))
    (object : Ptr) (method : M) (args : Args) : Prop :=
  ∀ (w0 w : World C Cb M Args) (s s' : C),
    w.heap[(create w0).1]? = (create w0).2.heap[(create w0).1]? →
    w.heap[object]? = some (Cell.object s) →
    body method args s = MethodResult.returned () s' →
    ∃ w', run (create w0).1 w = Outcome.returned () w' ∧
      w'.trace = w.trace ++ [Event.call object method args, Event.release (create w0).1] ∧
      w'.heap[(create w0).1]? = some Cell.free ∧
      w'.heap[object]? = some (Cell.object s') ∧
      run (create w0).1 w' = Outcome.undefined

/-- The factories store the values they are given, and no sequence of operations on an adapter
changes its data members: after the operations its storage holds the same data members, or, for
a single use adapter only, has been released. -/
def BoundValuesImmutable (fields : Cb)
    (newCallback newSingleCallback : World C Cb M Args → Ptr × World C Cb M Args)
    (run doRun : Ptr → X → World C Cb M Args → Outcome R E (World C Cb M Args)) : Prop :=
  (∀ w0 : World C Cb M Args, (newCallback w0).2.heap[(newCallback w0).1]? =
      some (Cell.callback Parent.Callback fields)) ∧
  (∀ w0 : World C Cb M Args, (newSingleCallback w0).2.heap[(newSingleCallback w0).1]? =
      some (Cell.callback Parent.SingleUseCallback fields)) ∧
  ∀ (parent : Parent) (w w' : World C Cb M Args) (p : Ptr) (ops : List (Op X)),
    w.heap[p]? = some (Cell.callback parent fields) →
    execOps (run p) (doRun p) ops w = some w' →
    w'.heap[p]? = some (Cell.callback parent fields) ∨
      (parent = Parent.SingleUseCallback ∧ w'.heap[p]? = some Cell.free)

/-- The adapter does not own its target.  Deleting the adapter leaves the target, and every cell
but the adapter, as it was.  Running the adapter leaves the target in the state in which the
method left it, and every cell other than the target and the adapter as it was. -/
def TargetNotOwned (body : M → Args → C → MethodResult R E C) (fields : Cb)
    (run : Ptr → World C Cb M Args → Outcome R E (World C Cb M Args))
    (object : Ptr) (method : M) (args : Args) : Prop :=
  ∀ (parent : Parent) (w : World C Cb M Args) (p : Ptr) (s : C),
    w.heap[p]? = some (Cell.callback parent fields) →
    w.heap[object]? = some (Cell.object s) →
    (∃ w', w.delete p = some w' ∧ w'.heap[object]? = some (Cell.object s) ∧
      ∀ q : Ptr, q ≠ p → w'.heap[q]? = w.heap[q]?) ∧
    ∃ w', (run p w).world? = some w' ∧
      w'.heap[object]? = some (Cell.object (body method args s).state) ∧
      ∀ q : Ptr, q ≠ object → q ≠ p → w'.heap[q]? = w.heap[q]?

/-- The reading of "a callback that deletes itself after it is run" for the adapter made by
`create`: whenever `Run` returns, the storage of the adapter has been released. -/
def DeletesItselfAfterRun
    (create : World C Cb M Args → Ptr × World C Cb M Args)
    (run : Ptr → World C Cb M Args → Outcome R E (World C Cb M Args)) : Prop :=
  ∀ (w w' : World C Cb M Args) (r : R),
    run (create w).1 (create w).2 = Outcome.returned r w' →
    w'.heap[(create w).1]? = some Cell.free

/-- The adapter made by `create` is not deleted by `Run`: `Run` ends as the method ends (it
returns the value the method returns, or throws what the method throws), the record of actions
grows by the call of the method and by nothing else, so that nothing has been released, and the
storage of the adapter is as `create` left it. -/
def SurvivesRun (body : M → Args → C → MethodResult R E C)
    (create : World C Cb M Args → Ptr × World C Cb M Args)
    (run : Ptr → World C Cb M Args → Outcome R E (World C Cb M Args))
    (object : Ptr) (method : M) (args : Args) : Prop :=
  ∀ (w0 w : World C Cb M Args) (s : C),
    w.heap[(create w0).1]? = (create w0).2.heap[(create w0).1]? →
    w.heap[object]? = some (Cell.object s) →
    ∃ w', (run (create w0).1 w).world? = some w' ∧
      (∀ r s', body method args s = MethodResult.returned r s' →
        run (create w0).1 w = Outcome.returned r w') ∧
      (∀ exc s', body method args s = MethodResult.threw exc s' →
        run (create w0).1 w = Outcome.threw exc w') ∧
      w'.trace = w.trace ++ [Event.call object method args] ∧
      w'.releases = w.releases ∧
      w'.heap[(create w0).1]? = (create w0).2.heap[(create w0).1]?

/-- The adapters made from the same inputs by `newCallback` and by `newSingleCallback` in the same
world are placed in the same fresh cell and hold the same data members; their first `Run` makes
the same call and returns the same value; the repeatable one has released nothing and the
single use one has released itself, and nothing else differs: the world after the single use
`Run` is the world after the repeatable `Run` with the adapter deleted. -/
def SameFirstRun (body : M → Args → C → MethodResult R E C)
    (newCallback newSingleCallback : World C Cb M Args → Ptr × World C Cb M Args)
    (run : Ptr → World C Cb M Args → Outcome R E (World C Cb M Args))
    (object : Ptr) (method : M) (args : Args) : Prop :=
  ∀ (w : World C Cb M Args) (s s' : C) (r : R),
    w.heap[object]? = some (Cell.object s) →
    body method args s = MethodResult.returned r s' →
    (newCallback w).1 = (newSingleCallback w).1 ∧
    (∃ fields, (newCallback w).2.heap[(newCallback w).1]? =
        some (Cell.callback Parent.Callback fields) ∧
      (newSingleCallback w).2.heap[(newCallback w).1]? =
        some (Cell.callback Parent.SingleUseCallback fields)) ∧
    ∃ wc ws, run (newCallback w).1 (newCallback w).2 = Outcome.returned r wc ∧
      run (newSingleCallback w).1 (newSingleCallback w).2 = Outcome.returned r ws ∧
      wc.calls = w.calls ++ [(object, method, args)] ∧
      ws.calls = w.calls ++ [(object, method, args)] ∧
      wc.releases = w.releases ∧
      ws.releases = w.releases ++ [(newCallback w).1] ∧
      wc.delete (newCallback w).1 = some ws

/-- A single use adapter made by `create`, when the method throws: `Run` throws the same
exception, the record of actions grows by the call of the method only (no release), and the
storage of the adapter is as `create` left it. -/
def ThrowSkipsRelease (body : M → Args → C → MethodResult R E C)
    (create : World C Cb M Args → Ptr × World C Cb M Args)
    (run : Ptr → World C Cb M Args → Outcome R E (World C Cb M Args))
    (object : Ptr) (method : M) (args : Args) : Prop :=
  ∀ (w0 w : World C Cb M Args) (s s' : C) (exc : E),
    w.heap[(create w0).1]? = (create w0).2.heap[(create w0).1]? →
    w.heap[object]? = some (Cell.object s) →
    body method args s = MethodResult.threw exc s' →
    ∃ w', run (create w0).1 w = Outcome.threw exc w' ∧
      w'.trace = w.trace ++ [Event.call object method args] ∧
      w'.heap[(create w0).1]? = (create w0).2.heap[(create w0).1]?

end Vocabulary

/-! ## Two target classes for the concrete scenarios -/

section Scenarios

/-- The member functions of the class `Calc`: `int add(int bound, int x)` and
`int div(int bound, int x)`. -/
inductive CalcMethod where
  | add
  | div
  deriving DecidableEq

/-- The class `Calc`.  An object counts the calls it has served; `add` returns `bound + x`;
`div` returns `bound / x` and throws when `x` is zero.  The scenarios use small values only, for
which `int` arithmetic is integer arithmetic. -/
def Calc.body : CalcMethod → Int × Int → Nat → MethodResult Int String Nat
  | CalcMethod.add, (bound, x), served => MethodResult.returned (bound + x) (served + 1)
  | CalcMethod.div, (bound, x), served =>
    if x = 0 then MethodResult.threw "division by zero" (served + 1)
    else MethodResult.returned (bound / x) (served + 1)

/-- The member functions of the class `Logger`: `void log(string msg)` and
`void fail(string msg)`. -/
inductive LoggerMethod where
  | log
  | fail
  deriving DecidableEq

/-- The class `Logger`.  An object holds the lines logged so far; `log` appends `msg`; `fail`
throws `msg`. -/
def Logger.body : LoggerMethod → String → List String → MethodResult Unit String (List String)
  | LoggerMethod.log, msg, lines => MethodResult.returned () (lines ++ [msg])
  | LoggerMethod.fail, msg, lines => MethodResult.threw msg lines

/-- A store holding one `Calc` object, at address 0. -/
def calcWorld : World Nat (MethodCallback1_1 CalcMethod Int) CalcMethod (Int × Int) :=
  ⟨[Cell.object 0], []⟩

/-- A store holding one `Logger` object, at address 0. -/
def loggerWorld : World (List String) (MethodCallback0_1 LoggerMethod) LoggerMethod String :=
  ⟨[Cell.object []], []⟩

end Scenarios

/-! ## The store and the primitive steps -/

section CoreLemmas

variable {C Cb M Args R E X : Type}

theorem ptr_lt_of_cell {w : World C Cb M Args} {p : Ptr} {c : Cell C Cb}
    (h : w.heap[p]? = some c) : p < w.heap.length := by
  rcases List.getElem?_eq_some.mp h with ⟨hlt, _⟩
  exact hlt

theorem new_cell (w : World C Cb M Args) (parent : Parent) (fields : Cb) :
    (w.new parent fields).2.heap[(w.new parent fields).1]? =
      some (Cell.callback parent fields) := by
  simp [World.new]

theorem new_old_cell (w : World C Cb M Args) (parent : Parent) (fields : Cb) {q : Ptr}
    {c : Cell C Cb} (h : w.heap[q]? = some c) : (w.new parent fields).2.heap[q]? = some c := by
  have hlt := ptr_lt_of_cell h
  simp [World.new, List.getElem?_append_left hlt, h]

theorem delete_callback {w : World C Cb M Args} {p : Ptr} {parent : Parent} {fields : Cb}
    (h : w.heap[p]? = some (Cell.callback parent fields)) :
    w.delete p = some ⟨w.heap.set p Cell.free, w.trace ++ [Event.release p]⟩ := by
  simp [World.delete, h]

theorem invoke_object (body : M → Args → C → MethodResult R E C) {w : World C Cb M Args}
    {object : Ptr} {s : C} (method : M) (args : Args)
    (h : w.heap[object]? = some (Cell.object s)) :
    invoke body object method args w =
      match body method args s with
      | MethodResult.returned ret s' =>
        Outcome.returned ret
          ⟨w.heap.set object (Cell.object s'), w.trace ++ [Event.call object method args]⟩
      | MethodResult.threw exc s' =>
        Outcome.threw exc
          ⟨w.heap.set object (Cell.object s'), w.trace ++ [Event.call object method args]⟩ := by
  simp [invoke, h]

theorem invoke_returned (body : M → Args → C → MethodResult R E C) {w : World C Cb M Args}
    {object : Ptr} {s s' : C} {method : M} {args : Args} {r : R}
    (h : w.heap[object]? = some (Cell.object s))
    (hb : body method args s = MethodResult.returned r s') :
    invoke body object method args w = Outcome.returned r
      ⟨w.heap.set object (Cell.object s'), w.trace ++ [Event.call object method args]⟩ := by
  rw [invoke_object body method args h, hb]

theorem invoke_threw (body : M → Args → C → MethodResult R E C) {w : World C Cb M Args}
    {object : Ptr} {s s' : C} {method : M} {args : Args} {exc : E}
    (h : w.heap[object]? = some (Cell.object s))
    (hb : body method args s = MethodResult.threw exc s') :
    invoke body object method args w = Outcome.threw exc
      ⟨w.heap.set object (Cell.object s'), w.trace ++ [Event.call object method args]⟩ := by
  rw [invoke_object body method args h, hb]

/-- The target of a call and a callback are different cells. -/
theorem object_ne_callback {w : World C Cb M Args} {object p : Ptr} {s : C} {parent : Parent}
    {fields : Cb} (ho : w.heap[object]? = some (Cell.object s))
    (hp : w.heap[p]? = some (Cell.callback parent fields)) : object ≠ p := by
  intro h
  subst h
  rw [ho] at hp
  cases hp

theorem set_cell_ne (l : List (Cell C Cb)) {p q : Ptr} (c : Cell C Cb) (h : p ≠ q) :
    (l.set p c)[q]? = l[q]? := by
  simp [List.getElem?_set, h]

theorem set_cell_eq (l : List (Cell C Cb)) {p : Ptr} (c : Cell C Cb) (h : p < l.length) :
    (l.set p c)[p]? = some c := by
  simp [List.getElem?_set, h]

end CoreLemmas

/-! ## Consequences of `Models` -/

section ModelsLemmas

variable {C Cb M Args R E X : Type}
variable {body : M → Args → C → MethodResult R E C} {fields : Cb}
variable {run doRun : Ptr → X → World C Cb M Args → Outcome R E (World C Cb M Args)}
variable {object : Ptr} {method : M} {args : X → Args}

theorem created_cell {create : World C Cb M Args → Ptr × World C Cb M Args} {parent : Parent}
    (hc : ∀ w0, create w0 = w0.new parent fields) (w0 : World C Cb M Args) :
    (create w0).2.heap[(create w0).1]? = some (Cell.callback parent fields) := by
  rw [hc w0]
  exact new_cell w0 parent fields

theorem Models.run_repeatable_returned (hm : Models body fields run doRun object method args)
    {w : World C Cb M Args} {p : Ptr} {x : X} {s s' : C} {r : R}
    (hp : w.heap[p]? = some (Cell.callback Parent.Callback fields))
    (ho : w.heap[object]? = some (Cell.object s))
    (hb : body method (args x) s = MethodResult.returned r s') :
    run p x w = Outcome.returned r
      ⟨w.heap.set object (Cell.object s'), w.trace ++ [Event.call object method (args x)]⟩ := by
  rw [hm.run_eq _ w p x hp, invoke_returned body ho hb]
  rfl

theorem Models.run_single_returned (hm : Models body fields run doRun object method args)
    {w : World C Cb M Args} {p : Ptr} {x : X} {s s' : C} {r : R}
    (hp : w.heap[p]? = some (Cell.callback Parent.SingleUseCallback fields))
    (ho : w.heap[object]? = some (Cell.object s))
    (hb : body method (args x) s = MethodResult.returned r s') :
    run p x w = Outcome.returned r
      ⟨(w.heap.set object (Cell.object s')).set p Cell.free,
        w.trace ++ [Event.call object method (args x), Event.release p]⟩ := by
  have hne := object_ne_callback ho hp
  have hp' : (w.heap.set object (Cell.object s'))[p]? =
      some (Cell.callback Parent.SingleUseCallback fields) := by
    rw [set_cell_ne _ _ hne, hp]
  rw [hm.run_eq _ w p x hp, invoke_returned body ho hb]
  simp [Parent.finish, World.delete, hp']

theorem Models.run_threw (hm : Models body fields run doRun object method args)
    {w : World C Cb M Args} {p : Ptr} {x : X} {s s' : C} {exc : E} {parent : Parent}
    (hp : w.heap[p]? = some (Cell.callback parent fields))
    (ho : w.heap[object]? = some (Cell.object s))
    (hb : body method (args x) s = MethodResult.threw exc s') :
    run p x w = Outcome.threw exc
      ⟨w.heap.set object (Cell.object s'), w.trace ++ [Event.call object method (args x)]⟩ := by
  rw [hm.run_eq _ w p x hp, invoke_threw body ho hb]
  cases parent <;> rfl

theorem Models.forwardsCall (hm : Models body fields run doRun object method args)
    {create : World C Cb M Args → Ptr × World C Cb M Args} {parent : Parent}
    (hc : ∀ w0, create w0 = w0.new parent fields) (x : X) :
    ForwardsCall body create (fun p => run p x) object method (args x) := by
  intro w0 w s s' r hi ho hb
  rw [created_cell hc w0] at hi
  cases parent
  · exact ⟨_, hm.run_repeatable_returned hi ho hb, by simp [World.calls]⟩
  · exact ⟨_, hm.run_single_returned hi ho hb, by simp [World.calls]⟩

theorem Models.singleUseSpec (hm : Models body fields run doRun object method args)
    {create : World C Cb M Args → Ptr × World C Cb M Args}
    (hc : ∀ w0, create w0 = w0.new Parent.SingleUseCallback fields) (x : X) :
    SingleUseSpec body create (fun p => run p x) object method (args x) := by
  intro w0 w s s' r hi ho hb
  rw [created_cell hc w0] at hi
  refine ⟨_, hm.run_single_returned hi ho hb, rfl, ?_⟩
  exact set_cell_eq _ _ (by simpa using ptr_lt_of_cell hi)

theorem Models.singleUseVoidSpec {body : M → Args → C → MethodResult Unit E C}
    {run doRun : Ptr → X → World C Cb M Args → Outcome Unit E (World C Cb M Args)}
    (hm : Models body fields run doRun object method args)
    {create : World C Cb M Args → Ptr × World C Cb M Args}
    (hc : ∀ w0, create w0 = w0.new Parent.SingleUseCallback fields) (x : X) :
    SingleUseVoidSpec body create (fun p => run p x) object method (args x) := by
  intro w0 w s s' hi ho hb
  rw [created_cell hc w0] at hi
  have hfree : ((w.heap.set object (Cell.object s')).set (create w0).1 Cell.free)[(create w0).1]?
      = some Cell.free := set_cell_eq _ _ (by simpa using ptr_lt_of_cell hi)
  refine ⟨_, hm.run_single_returned hi ho hb, rfl, hfree, ?_, hm.run_free _ _ x hfree⟩
  have hne := object_ne_callback ho hi
  show ((w.heap.set object (Cell.object s')).set (create w0).1 Cell.free)[object]? = _
  rw [set_cell_ne _ _ (Ne.symm hne)]
  exact set_cell_eq _ _ (ptr_lt_of_cell ho)

theorem Models.throwSkipsRelease (hm : Models body fields run doRun object method args)
    {create : World C Cb M Args → Ptr × World C Cb M Args} {parent : Parent}
    (hc : ∀ w0, create w0 = w0.new parent fields) (x : X) :
    ThrowSkipsRelease body create (fun p => run p x) object method (args x) := by
  intro w0 w s s' exc hi ho hb
  rw [created_cell hc w0] at hi ⊢
  refine ⟨_, hm.run_threw hi ho hb, rfl, ?_⟩
  show (w.heap.set object (Cell.object s'))[(create w0).1]? = _
  rw [set_cell_ne _ _ (object_ne_callback ho hi), hi]

theorem Models.survivesRun (hm : Models body fields run doRun object method args)
    {create : World C Cb M Args → Ptr × World C Cb M Args}
    (hc : ∀ w0, create w0 = w0.new Parent.Callback fields) (x : X) :
    SurvivesRun body create (fun p => run p x) object method (args x) := by
  intro w0 w s hi ho
  rw [created_cell hc w0] at hi ⊢
  have hne := object_ne_callback ho hi
  cases hb : body method (args x) s with
  | returned r s' =>
    refine ⟨⟨w.heap.set object (Cell.object s'),
      w.trace ++ [Event.call object method (args x)]⟩, ?_, ?_, ?_, rfl, ?_, ?_⟩
    · show (run _ x w).world? = _
      rw [hm.run_repeatable_returned hi ho hb]; rfl
    · intro r2 s2 h2
      cases h2
      exact hm.run_repeatable_returned hi ho hb
    · intro e2 s2 h2
      cases h2
    · simp [World.releases]
    · show (w.heap.set object (Cell.object s'))[(create w0).1]? = _
      rw [set_cell_ne _ _ hne, hi]
  | threw exc s' =>
    refine ⟨⟨w.heap.set object (Cell.object s'),
      w.trace ++ [Event.call object method (args x)]⟩, ?_, ?_, ?_, rfl, ?_, ?_⟩
    · show (run _ x w).world? = _
      rw [hm.run_threw hi ho hb]; rfl
    · intro r2 s2 h2
      cases h2
    · intro e2 s2 h2
      cases h2
      exact hm.run_threw hi ho hb
    · simp [World.releases]
    · show (w.heap.set object (Cell.object s'))[(create w0).1]? = _
      rw [set_cell_ne _ _ hne, hi]

theorem Models.sameFirstRun (hm : Models body fields run doRun object method args)
    {newCallback newSingleCallback : World C Cb M Args → Ptr × World C Cb M Args}
    (hc : ∀ w0, newCallback w0 = w0.new Parent.Callback fields)
    (hs : ∀ w0, newSingleCallback w0 = w0.new Parent.SingleUseCallback fields) (x : X) :
    SameFirstRun body newCallback newSingleCallback (fun p => run p x) object method
      (args x) := by
  intro w s s' r ho hb
  have hpc := created_cell hc w
  have hps := created_cell hs w
  have hoc : (newCallback w).2.heap[object]? = some (Cell.object s) := by
    rw [hc w]; exact new_old_cell w _ _ ho
  have hos : (newSingleCallback w).2.heap[object]? = some (Cell.object s) := by
    rw [hs w]; exact new_old_cell w _ _ ho
  have hne := object_ne_callback hoc hpc
  have heq : (newCallback w).1 = (newSingleCallback w).1 := by rw [hc w, hs w]; rfl
  have htc : (newCallback w).2.trace = w.trace := by rw [hc w]; rfl
  have hts : (newSingleCallback w).2.trace = w.trace := by rw [hs w]; rfl
  refine ⟨heq, ⟨fields, hpc, by rw [heq]; exact hps⟩, _, _,
    hm.run_repeatable_returned hpc hoc hb, hm.run_single_returned hps hos hb, ?_, ?_, ?_, ?_, ?_⟩
  · simp [World.calls, htc]
  · simp [World.calls, hts]
  · simp [World.releases, htc]
  · simp [World.releases, hts, heq]
  · have hp' : ((newCallback w).2.heap.set object (Cell.object s'))[(newCallback w).1]? =
        some (Cell.callback Parent.Callback fields) := by
      rw [set_cell_ne _ _ hne, hpc]
    rw [delete_callback hp']
    simp only [htc, hts, ← heq, List.append_assoc, List.singleton_append]
    rw [hc w, hs w]
    have hlt := ptr_lt_of_cell ho
    simp [World.new, List.set_append, hlt]

theorem callSeq_cons_returned {body : M → Args → C → MethodResult R E C} {method : M}
    {args : X → Args} {x : X} {xs : List X} {s s' : C} {rs : List R}
    (h : callSeq body method args (x :: xs) s = MethodResult.returned rs s') :
    ∃ r s1 rs1, body method (args x) s = MethodResult.returned r s1 ∧
      callSeq body method args xs s1 = MethodResult.returned rs1 s' ∧ rs = r :: rs1 := by
  simp only [callSeq] at h
  split at h
  · next r s1 hb =>
    split at h
    · next rs1 s2 ht =>
      cases h
      exact ⟨r, s1, rs1, hb, ht, rfl⟩
    · cases h
  · cases h

theorem callSeq_length {body : M → Args → C → MethodResult R E C} {method : M}
    {args : X → Args} :
    ∀ (xs : List X) (s s' : C) (rs : List R),
      callSeq body method args xs s = MethodResult.returned rs s' → rs.length = xs.length := by
  intro xs
  induction xs with
  | nil =>
    intro s s' rs h
    simp only [callSeq] at h
    cases h
    rfl
  | cons x xs ih =>
    intro s s' rs h
    obtain ⟨r, s1, rs1, _, ht, rfl⟩ := callSeq_cons_returned h
    simp [ih s1 s' rs1 ht]

theorem callSeq_take {body : M → Args → C → MethodResult R E C} {method : M}
    {args : X → Args} :
    ∀ (xs : List X) (s s' : C) (rs : List R) (k : Nat),
      callSeq body method args xs s = MethodResult.returned rs s' →
      ∃ sk, callSeq body method args (xs.take k) s = MethodResult.returned (rs.take k) sk := by
  intro xs
  induction xs with
  | nil =>
    intro s s' rs k h
    simp only [callSeq] at h
    cases h
    exact ⟨s, by simp [callSeq]⟩
  | cons x xs ih =>
    intro s s' rs k h
    obtain ⟨r, s1, rs1, hb, ht, rfl⟩ := callSeq_cons_returned h
    cases k with
    | zero => exact ⟨s, by simp [callSeq]⟩
    | succ k =>
      obtain ⟨sk, hk⟩ := ih s1 s' rs1 k ht
      exact ⟨sk, by simp [callSeq, hb, hk]⟩

theorem Models.runSeq_repeatable (hm : Models body fields run doRun object method args)
    (p : Ptr) :
    ∀ (xs : List X) (w : World C Cb M Args) (s s' : C) (rs : List R),
      w.heap[p]? = some (Cell.callback Parent.Callback fields) →
      w.heap[object]? = some (Cell.object s) →
      callSeq body method args xs s = MethodResult.returned rs s' →
      ∃ w', runSeq (run p) xs w = Outcome.returned rs w' ∧
        w'.trace = w.trace ++ xs.map (fun x => Event.call object method (args x)) ∧
        w'.heap[p]? = some (Cell.callback Parent.Callback fields) ∧
        w'.heap[object]? = some (Cell.object s') := by
  intro xs
  induction xs with
  | nil =>
    intro w s s' rs hp ho h
    simp only [callSeq] at h
    cases h
    exact ⟨w, rfl, by simp, hp, ho⟩
  | cons x xs ih =>
    intro w s s' rs hp ho h
    obtain ⟨r, s1, rs1, hb, ht, rfl⟩ := callSeq_cons_returned h
    have hne := object_ne_callback ho hp
    have hp1 : (World.mk (w.heap.set object (Cell.object s1))
        (w.trace ++ [Event.call object method (args x)])).heap[p]? =
        some (Cell.callback Parent.Callback fields) := by
      show (w.heap.set object (Cell.object s1))[p]? = _
      rw [set_cell_ne _ _ hne, hp]
    have ho1 : (World.mk (w.heap.set object (Cell.object s1))
        (w.trace ++ [Event.call object method (args x)])).heap[object]? =
        some (Cell.object s1) := set_cell_eq _ _ (ptr_lt_of_cell ho)
    obtain ⟨w', hrun, htr, hp', ho'⟩ := ih _ s1 s' rs1 hp1 ho1 ht
    refine ⟨w', ?_, ?_, hp', ho'⟩
    · simp only [runSeq]
      rw [hm.run_repeatable_returned hp ho hb]
      simp only [hrun]
    · rw [htr]
      simp

theorem Models.repeatableSpec (hm : Models body fields run doRun object method args)
    {create : World C Cb M Args → Ptr × World C Cb M Args}
    (hc : ∀ w0, create w0 = w0.new Parent.Callback fields) :
    RepeatableSpec body create run object method args := by
  intro w0 w xs s s' rs hi ho h
  rw [created_cell hc w0] at hi ⊢
  refine ⟨callSeq_length xs s s' rs h, ?_, ?_⟩
  · intro k
    obtain ⟨sk, hk⟩ := callSeq_take xs s s' rs k h
    obtain ⟨wk, hrun, htr, hp, _⟩ := hm.runSeq_repeatable _ _ w s sk _ hi ho hk
    exact ⟨wk, hrun, htr, hp⟩
  · obtain ⟨w', hrun, _, _, ho'⟩ := hm.runSeq_repeatable _ xs w s s' rs hi ho h
    exact ⟨w', hrun, ho'⟩

theorem invoke_world {body : M → Args → C → MethodResult R E C} {object : Ptr} {method : M}
    {a : Args} {w w1 : World C Cb M Args}
    (h : (invoke body object method a w).world? = some w1) :
    ∃ s, w.heap[object]? = some (Cell.object s) ∧
      w1 = ⟨w.heap.set object (Cell.object (body method a s).state),
        w.trace ++ [Event.call object method a]⟩ := by
  unfold invoke at h
  split at h
  · next s hs =>
    refine ⟨s, hs, ?_⟩
    cases hb : body method a s with
    | returned r s' =>
      rw [hb] at h
      simp only [Outcome.world?, Option.some.injEq] at h
      rw [← h]; rfl
    | threw exc s' =>
      rw [hb] at h
      simp only [Outcome.world?, Option.some.injEq] at h
      rw [← h]; rfl
  · cases h

theorem finish_world {parent : Parent} {p : Ptr} {out : Outcome R E (World C Cb M Args)}
    {w' : World C Cb M Args} (h : (parent.finish p out).world? = some w') :
    ∃ w1, out.world? = some w1 ∧
      (w' = w1 ∨ (parent = Parent.SingleUseCallback ∧ w1.delete p = some w')) := by
  cases parent with
  | Callback => exact ⟨w', h, Or.inl rfl⟩
  | SingleUseCallback =>
    cases out with
    | undefined => cases h
    | threw exc w1 =>
      simp only [Parent.finish, Outcome.world?, Option.some.injEq] at h
      exact ⟨w1, rfl, Or.inl h.symm⟩
    | returned r w1 =>
      simp only [Parent.finish] at h
      cases hd : w1.delete p with
      | none => rw [hd] at h; cases h
      | some w2 =>
        rw [hd] at h
        simp only [Outcome.world?, Option.some.injEq] at h
        exact ⟨w1, rfl, Or.inr ⟨rfl, by rw [← h]; exact hd⟩⟩

theorem delete_world {w w' : World C Cb M Args} {p : Ptr} (h : w.delete p = some w') :
    w' = ⟨w.heap.set p Cell.free, w.trace ++ [Event.release p]⟩ := by
  unfold World.delete at h
  split at h
  · simp only [Option.some.injEq] at h
    exact h.symm
  · cases h

/-- One operation keeps the data members of the adapter, or releases a single use adapter. -/
theorem Models.step_cell (hm : Models body fields run doRun object method args)
    {parent : Parent} {w w1 : World C Cb M Args} {p : Ptr} {x : X}
    (hp : w.heap[p]? = some (Cell.callback parent fields))
    (h : (run p x w).world? = some w1 ∨ (doRun p x w).world? = some w1) :
    w1.heap[p]? = some (Cell.callback parent fields) ∨
      (parent = Parent.SingleUseCallback ∧ w1.heap[p]? = some Cell.free) := by
  have key : ∀ wi : World C Cb M Args,
      (invoke body object method (args x) w).world? = some wi →
      wi.heap[p]? = some (Cell.callback parent fields) ∧ p < wi.heap.length := by
    intro wi hwi
    obtain ⟨s, ho, rfl⟩ := invoke_world hwi
    have hne := object_ne_callback ho hp
    refine ⟨?_, by simpa using ptr_lt_of_cell hp⟩
    show (w.heap.set object _)[p]? = _
    rw [set_cell_ne _ _ hne, hp]
  rcases h with h | h
  · rw [hm.run_eq _ w p x hp] at h
    obtain ⟨wi, hwi, hcase⟩ := finish_world h
    rcases hcase with rfl | ⟨hpar, hdel⟩
    · exact Or.inl (key _ hwi).1
    · rw [delete_world hdel]
      exact Or.inr ⟨hpar, set_cell_eq _ _ (key _ hwi).2⟩
  · rw [hm.doRun_eq _ w p x hp] at h
    exact Or.inl (key _ h).1

theorem Models.execOps_cell (hm : Models body fields run doRun object method args)
    (parent : Parent) (p : Ptr) :
    ∀ (ops : List (Op X)) (w w' : World C Cb M Args),
      w.heap[p]? = some (Cell.callback parent fields) →
      execOps (run p) (doRun p) ops w = some w' →
      w'.heap[p]? = some (Cell.callback parent fields) ∨
        (parent = Parent.SingleUseCallback ∧ w'.heap[p]? = some Cell.free) := by
  intro ops
  induction ops with
  | nil =>
    intro w w' hp h
    simp only [execOps, Option.some.injEq] at h
    rw [← h]
    exact Or.inl hp
  | cons op ops ih =>
    intro w w' hp h
    cases op with
    | Run x =>
      simp only [execOps] at h
      cases h1 : (run p x w).world? with
      | none => rw [h1] at h; cases h
      | some w1 =>
        rw [h1] at h
        rcases hm.step_cell hp (Or.inl h1) with hc | ⟨hpar, hfree⟩
        · exact ih w1 w' hc h
        · cases ops with
          | nil =>
            simp only [execOps, Option.some.injEq] at h
            rw [← h]
            exact Or.inr ⟨hpar, hfree⟩
          | cons op2 ops2 =>
            cases op2 with
            | Run y => simp [execOps, hm.run_free w1 p y hfree, Outcome.world?] at h
            | DoRun y => simp [execOps, hm.doRun_free w1 p y hfree, Outcome.world?] at h
    | DoRun x =>
      simp only [execOps] at h
      cases h1 : (doRun p x w).world? with
      | none => rw [h1] at h; cases h
      | some w1 =>
        rw [h1] at h
        rcases hm.step_cell hp (Or.inr h1) with hc | ⟨hpar, hfree⟩
        · exact ih w1 w' hc h
        · cases ops with
          | nil =>
            simp only [execOps, Option.some.injEq] at h
            rw [← h]
            exact Or.inr ⟨hpar, hfree⟩
          | cons op2 ops2 =>
            cases op2 with
            | Run y => simp [execOps, hm.run_free w1 p y hfree, Outcome.world?] at h
            | DoRun y => simp [execOps, hm.doRun_free w1 p y hfree, Outcome.world?] at h

theorem Models.boundValuesImmutable (hm : Models body fields run doRun object method args)
    {newCallback newSingleCallback : World C Cb M Args → Ptr × World C Cb M Args}
    (hc : ∀ w0, newCallback w0 = w0.new Parent.Callback fields)
    (hs : ∀ w0, newSingleCallback w0 = w0.new Parent.SingleUseCallback fields) :
    BoundValuesImmutable fields newCallback newSingleCallback run doRun :=
  ⟨created_cell hc, created_cell hs, fun parent w w' p ops hp h =>
    hm.execOps_cell parent p ops w w' hp h⟩

theorem Models.targetNotOwned (hm : Models body fields run doRun object method args) (x : X) :
    TargetNotOwned body fields (fun p => run p x) object method (args x) := by
  intro parent w p s hp ho
  have hne := object_ne_callback ho hp
  constructor
  · refine ⟨_, delete_callback hp, ?_, ?_⟩
    · show (w.heap.set p Cell.free)[object]? = _
      rw [set_cell_ne _ _ (Ne.symm hne), ho]
    · intro q hq
      exact set_cell_ne _ _ (Ne.symm hq)
  · have hinv := invoke_object body method (args x) (w := w) ho
    have hrun := hm.run_eq parent w p x hp
    have hp' : ∀ s' : C, (w.heap.set object (Cell.object s'))[p]? =
        some (Cell.callback parent fields) := by
      intro s'
      rw [set_cell_ne _ _ hne, hp]
    have hfin : ∃ w', (run p x w).world? = some w' ∧
        (w'.heap = w.heap.set object (Cell.object (body method (args x) s).state) ∨
          w'.heap = (w.heap.set object (Cell.object (body method (args x) s).state)).set p
            Cell.free) := by
      rw [hrun, hinv]
      cases hb : body method (args x) s with
      | returned r s' =>
        cases parent with
        | Callback => exact ⟨_, rfl, Or.inl rfl⟩
        | SingleUseCallback =>
          refine ⟨⟨(w.heap.set object (Cell.object s')).set p Cell.free,
            (w.trace ++ [Event.call object method (args x)]) ++ [Event.release p]⟩, ?_,
            Or.inr rfl⟩
          simp [Parent.finish, World.delete, hp' s', Outcome.world?]
      | threw exc s' =>
        cases parent with
        | Callback => exact ⟨_, rfl, Or.inl rfl⟩
        | SingleUseCallback => exact ⟨_, rfl, Or.inl rfl⟩
    obtain ⟨w', hw', hheap⟩ := hfin
    refine ⟨w', hw', ?_, ?_⟩
    · rcases hheap with hh | hh
      · rw [hh]; exact set_cell_eq _ _ (ptr_lt_of_cell ho)
      · rw [hh, set_cell_ne _ _ (Ne.symm hne)]; exact set_cell_eq _ _ (ptr_lt_of_cell ho)
    · intro q hqo hqp
      rcases hheap with hh | hh
      · rw [hh, set_cell_ne _ _ (Ne.symm hqo)]
      · rw [hh, set_cell_ne _ _ (Ne.symm hqp), set_cell_ne _ _ (Ne.symm hqo)]

end ModelsLemmas

/-! ## Each adapter class models a call of its method -/

section Dispatch1

variable {C Cb M Args R E Arg0 : Type}

theorem BaseCallback1_Run_eq_finish
    (DoRun : Ptr → Arg0 → World C Cb M Args →
      Outcome R E (World C Cb M Args))
    {w : World C Cb M Args} {p : Ptr} {parent : Parent} {fields : Cb}
    {arg0 : Arg0}
    (h : w.heap[p]? = some (Cell.callback parent fields)) :
    BaseCallback1.Run DoRun p arg0 w =
      parent.finish p (DoRun p arg0 w) := by
  unfold BaseCallback1.Run
  rw [h]
  cases parent
  · rfl
  · show SingleUseCallback1.Run DoRun p arg0 w = _
    unfold SingleUseCallback1.Run
    cases DoRun p arg0 w <;> rfl

theorem BaseCallback1_Run_free
    (DoRun : Ptr → Arg0 → World C Cb M Args →
      Outcome R E (World C Cb M Args))
    {w : World C Cb M Args} {p : Ptr}
    {arg0 : Arg0}
    (h : w.heap[p]? = some Cell.free) :
    BaseCallback1.Run DoRun p arg0 w = Outcome.undefined := by
  unfold BaseCallback1.Run
  rw [h]

/-- With return type `void` the specialization does what the primary template does. -/
theorem BaseCallback1_void_Run_eq
    (DoRun : Ptr → Arg0 → World C Cb M Args →
      Outcome Unit E (World C Cb M Args))
    (p : Ptr) (arg0 : Arg0) (w : World C Cb M Args) :
    BaseCallback1_void.Run DoRun p arg0 w =
      BaseCallback1.Run DoRun p arg0 w := by
  unfold BaseCallback1_void.Run BaseCallback1.Run
  split
  · rfl
  · show SingleUseCallback1_void.Run DoRun p arg0 w =
      SingleUseCallback1.Run DoRun p arg0 w
    unfold SingleUseCallback1_void.Run SingleUseCallback1.Run
    cases DoRun p arg0 w <;> rfl
  · rfl

end Dispatch1

section Dispatch2

variable {C Cb M Args R E Arg0 Arg1 : Type}

theorem BaseCallback2_Run_eq_finish
    (DoRun : Ptr → Arg0 → Arg1 → World C Cb M Args →
      Outcome R E (World C Cb M Args))
    {w : World C Cb M Args} {p : Ptr} {parent : Parent} {fields : Cb}
    {arg0 : Arg0} {arg1 : Arg1}
    (h : w.heap[p]? = some (Cell.callback parent fields)) :
    BaseCallback2.Run DoRun p arg0 arg1 w =
      parent.finish p (DoRun p arg0 arg1 w) := by
  unfold BaseCallback2.Run
  rw [h]
  cases parent
  · rfl
  · show SingleUseCallback2.Run DoRun p arg0 arg1 w = _
    unfold SingleUseCallback2.Run
    cases DoRun p arg0 arg1 w <;> rfl

theorem BaseCallback2_Run_free
    (DoRun : Ptr → Arg0 → Arg1 → World C Cb M Args →
      Outcome R E (World C Cb M Args))
    {w : World C Cb M Args} {p : Ptr}
    {arg0 : Arg0} {arg1 : Arg1}
    (h : w.heap[p]? = some Cell.free) :
    BaseCallback2.Run DoRun p arg0 arg1 w = Outcome.undefined := by
  unfold BaseCallback2.Run
  rw [h]

/-- With return type `void` the specialization does what the primary template does. -/
theorem BaseCallback2_void_Run_eq
    (DoRun : Ptr → Arg0 → Arg1 → World C Cb M Args →
      Outcome Unit E (World C Cb M Args))
    (p : Ptr) (arg0 : Arg0) (arg1 : Arg1) (w : World C Cb M Args) :
    BaseCallback2_void.Run DoRun p arg0 arg1 w =
      BaseCallback2.Run DoRun p arg0 arg1 w := by
  unfold BaseCallback2_void.Run BaseCallback2.Run
  split
  · rfl
  · show SingleUseCallback2_void.Run DoRun p arg0 arg1 w =
      SingleUseCallback2.Run DoRun p arg0 arg1 w
    unfold SingleUseCallback2_void.Run SingleUseCallback2.Run
    cases DoRun p arg0 arg1 w <;> rfl
  · rfl

end Dispatch2

section Dispatch4

variable {C Cb M Args R E Arg0 Arg1 Arg2 Arg3 : Type}

theorem BaseCallback4_Run_eq_finish
    (DoRun : Ptr → Arg0 → Arg1 → Arg2 → Arg3 → World C Cb M Args →
      Outcome R E (World C Cb M Args))
    {w : World C Cb M Args} {p : Ptr} {parent : Parent} {fields : Cb}
    {arg0 : Arg0} {arg1 : Arg1} {arg2 : Arg2} {arg3 : Arg3}
    (h : w.heap[p]? = some (Cell.callback parent fields)) :
    BaseCallback4.Run DoRun p arg0 arg1 arg2 arg3 w =
      parent.finish p (DoRun p arg0 arg1 arg2 arg3 w) := by
  unfold BaseCallback4.Run
  rw [h]
  cases parent
  · rfl
  · show SingleUseCallback4.Run DoRun p arg0 arg1 arg2 arg3 w = _
    unfold SingleUseCallback4.Run
    cases DoRun p arg0 arg1 arg2 arg3 w <;> rfl

theorem BaseCallback4_Run_free
    (DoRun : Ptr → Arg0 → Arg1 → Arg2 → Arg3 → World C Cb M Args →
      Outcome R E (World C Cb M Args))
    {w : World C Cb M Args} {p : Ptr}
    {arg0 : Arg0} {arg1 : Arg1} {arg2 : Arg2} {arg3 : Arg3}
    (h : w.heap[p]? = some Cell.free) :
    BaseCallback4.Run DoRun p arg0 arg1 arg2 arg3 w = Outcome.undefined := by
  unfold BaseCallback4.Run
  rw [h]

/-- With return type `void` the specialization does what the primary template does. -/
theorem BaseCallback4_void_Run_eq
    (DoRun : Ptr → Arg0 → Arg1 → Arg2 → Arg3 → World C Cb M Args →
      Outcome Unit E (World C Cb M Args))
    (p : Ptr) (arg0 : Arg0) (arg1 : Arg1) (arg2 : Arg2) (arg3 : Arg3) (w : World C Cb M Args) :
    BaseCallback4_void.Run DoRun p arg0 arg1 arg2 arg3 w =
      BaseCallback4.Run DoRun p arg0 arg1 arg2 arg3 w := by
  unfold BaseCallback4_void.Run BaseCallback4.Run
  split
  · rfl
  · show SingleUseCallback4_void.Run DoRun p arg0 arg1 arg2 arg3 w =
      SingleUseCallback4.Run DoRun p arg0 arg1 arg2 arg3 w
    unfold SingleUseCallback4_void.Run SingleUseCallback4.Run
    cases DoRun p arg0 arg1 arg2 arg3 w <;> rfl
  · rfl

end Dispatch4

section Models0_1

variable {C M R E Arg0 : Type}

theorem MethodCallback0_1_models
    (body : M → Arg0 → C → MethodResult R E C)
    (obj : Ptr) (m : M) :
    Models body (⟨obj, m⟩ : MethodCallback0_1 M)
        (BaseCallback1.Run (MethodCallback0_1.DoRun body))
        (MethodCallback0_1.DoRun body)
        obj m (fun x => x) where
  doRun_eq := by
    intro parent w p x h
    simp only [MethodCallback0_1.DoRun, h]
  run_eq := by
    intro parent w p x h
    simp only [BaseCallback1_Run_eq_finish _ h, MethodCallback0_1.DoRun, h]
  doRun_free := by
    intro w p x h
    simp only [MethodCallback0_1.DoRun, h]
  run_free := by
    intro w p x h
    simp only [BaseCallback1_Run_free _ h]

theorem MethodCallback0_1_models_void
    (body : M → Arg0 → C → MethodResult Unit E C)
    (obj : Ptr) (m : M) :
    Models body (⟨obj, m⟩ : MethodCallback0_1 M)
        (BaseCallback1_void.Run (MethodCallback0_1.DoRun body))
        (MethodCallback0_1.DoRun body)
        obj m (fun x => x) where
  doRun_eq := (MethodCallback0_1_models body obj m).doRun_eq
  run_eq := fun parent w p x h =>
    (BaseCallback1_void_Run_eq _ p _ w).trans
      ((MethodCallback0_1_models body obj m).run_eq parent w p x h)
  doRun_free := (MethodCallback0_1_models body obj m).doRun_free
  run_free := fun w p x h =>
    (BaseCallback1_void_Run_eq _ p _ w).trans
      ((MethodCallback0_1_models body obj m).run_free w p x h)

end Models0_1

section Models1_1

variable {C M R E A0 Arg0 : Type}

theorem MethodCallback1_1_models
    (body : M → A0 × Arg0 → C → MethodResult R E C)
    (obj : Ptr) (m : M) (b0 : A0) :
    Models body (⟨obj, m, b0⟩ : MethodCallback1_1 M A0)
        (BaseCallback1.Run (MethodCallback1_1.DoRun body))
        (MethodCallback1_1.DoRun body)
        obj m (fun x => (b0, x)) where
  doRun_eq := by
    intro parent w p x h
    simp only [MethodCallback1_1.DoRun, h]
  run_eq := by
    intro parent w p x h
    simp only [BaseCallback1_Run_eq_finish _ h, MethodCallback1_1.DoRun, h]
  doRun_free := by
    intro w p x h
    simp only [MethodCallback1_1.DoRun, h]
  run_free := by
    intro w p x h
    simp only [BaseCallback1_Run_free _ h]

theorem MethodCallback1_1_models_void
    (body : M → A0 × Arg0 → C → MethodResult Unit E C)
    (obj : Ptr) (m : M) (b0 : A0) :
    Models body (⟨obj, m, b0⟩ : MethodCallback1_1 M A0)
        (BaseCallback1_void.Run (MethodCallback1_1.DoRun body))
        (MethodCallback1_1.DoRun body)
        obj m (fun x => (b0, x)) where
  doRun_eq := (MethodCallback1_1_models body obj m b0).doRun_eq
  run_eq := fun parent w p x h =>
    (BaseCallback1_void_Run_eq _ p _ w).trans
      ((MethodCallback1_1_models body obj m b0).run_eq parent w p x h)
  doRun_free := (MethodCallback1_1_models body obj m b0).doRun_free
  run_free := fun w p x h =>
    (BaseCallback1_void_Run_eq _ p _ w).trans
      ((MethodCallback1_1_models body obj m b0).run_free w p x h)

end Models1_1

section Models2_1

variable {C M R E A0 A1 Arg0 : Type}

theorem MethodCallback2_1_models
    (body : M → A0 × A1 × Arg0 → C → MethodResult R E C)
    (obj : Ptr) (m : M) (b0 : A0) (b1 : A1) :
    Models body (⟨obj, m, b0, b1⟩ : MethodCallback2_1 M A0 A1)
        (BaseCallback1.Run (MethodCallback2_1.DoRun body))
        (MethodCallback2_1.DoRun body)
        obj m (fun x => (b0, b1, x)) where
  doRun_eq := by
    intro parent w p x h
    simp only [MethodCallback2_1.DoRun, h]
  run_eq := by
    intro parent w p x h
    simp only [BaseCallback1_Run_eq_finish _ h, MethodCallback2_1.DoRun, h]
  doRun_free := by
    intro w p x h
    simp only [MethodCallback2_1.DoRun, h]
  run_free := by
    intro w p x h
    simp only [BaseCallback1_Run_free _ h]

theorem MethodCallback2_1_models_void
    (body : M → A0 × A1 × Arg0 → C → MethodResult Unit E C)
    (obj : Ptr) (m : M) (b0 : A0) (b1 : A1) :
    Models body (⟨obj, m, b0, b1⟩ : MethodCallback2_1 M A0 A1)
        (BaseCallback1_void.Run (MethodCallback2_1.DoRun body))
        (MethodCallback2_1.DoRun body)
        obj m (fun x => (b0, b1, x)) where
  doRun_eq := (MethodCallback2_1_models body obj m b0 b1).doRun_eq
  run_eq := fun parent w p x h =>
    (BaseCallback1_void_Run_eq _ p _ w).trans
      ((MethodCallback2_1_models body obj m b0 b1).run_eq parent w p x h)
  doRun_free := (MethodCallback2_1_models body obj m b0 b1).doRun_free
  run_free := fun w p x h =>
    (BaseCallback1_void_Run_eq _ p _ w).trans
      ((MethodCallback2_1_models body obj m b0 b1).run_free w p x h)

end Models2_1

section Models3_1

variable {C M R E A0 A1 A2 Arg0 : Type}

theorem MethodCallback3_1_models
    (body : M → A0 × A1 × A2 × Arg0 → C → MethodResult R E C)
    (obj : Ptr) (m : M) (b0 : A0) (b1 : A1) (b2 : A2) :
    Models body (⟨obj, m, b0, b1, b2⟩ : MethodCallback3_1 M A0 A1 A2)
        (BaseCallback1.Run (MethodCallback3_1.DoRun body))
        (MethodCallback3_1.DoRun body)
        obj m (fun x => (b0, b1, b2, x)) where
  doRun_eq := by
    intro parent w p x h
    simp only [MethodCallback3_1.DoRun, h]
  run_eq := by
    intro parent w p x h
    simp only [BaseCallback1_Run_eq_finish _ h, MethodCallback3_1.DoRun, h]
  doRun_free := by
    intro w p x h
    simp only [MethodCallback3_1.DoRun, h]
  run_free := by
    intro w p x h
    simp only [BaseCallback1_Run_free _ h]

theorem MethodCallback3_1_models_void
    (body : M → A0 × A1 × A2 × Arg0 → C → MethodResult Unit E C)
    (obj : Ptr) (m : M) (b0 : A0) (b1 : A1) (b2 : A2) :
    Models body (⟨obj, m, b0, b1, b2⟩ : MethodCallback3_1 M A0 A1 A2)
        (BaseCallback1_void.Run (MethodCallback3_1.DoRun body))
        (MethodCallback3_1.DoRun body)
        obj m (fun x => (b0, b1, b2, x)) where
  doRun_eq := (MethodCallback3_1_models body obj m b0 b1 b2).doRun_eq
  run_eq := fun parent w p x h =>
    (BaseCallback1_void_Run_eq _ p _ w).trans
      ((MethodCallback3_1_models body obj m b0 b1 b2).run_eq parent w p x h)
  doRun_free := (MethodCallback3_1_models body obj m b0 b1 b2).doRun_free
  run_free := fun w p x h =>
    (BaseCallback1_void_Run_eq _ p _ w).trans
      ((MethodCallback3_1_models body obj m b0 b1 b2).run_free w p x h)

end Models3_1

section Models0_2

variable {C M R E Arg0 Arg1 : Type}

theorem MethodCallback0_2_models
    (body : M → Arg0 × Arg1 → C → MethodResult R E C)
    (obj : Ptr) (m : M) :
    Models body (⟨obj, m⟩ : MethodCallback0_2 M)
        (fun p (x : Arg0 × Arg1) =>
          BaseCallback2.Run (MethodCallback0_2.DoRun body) p x.1 x.2)
        (fun p (x : Arg0 × Arg1) =>
          MethodCallback0_2.DoRun body p x.1 x.2)
        obj m (fun x => (x.1, x.2)) where
  doRun_eq := by
    intro parent w p x h
    simp only [MethodCallback0_2.DoRun, h]
  run_eq := by
    intro parent w p x h
    simp only [BaseCallback2_Run_eq_finish _ h, MethodCallback0_2.DoRun, h]
  doRun_free := by
    intro w p x h
    simp only [MethodCallback0_2.DoRun, h]
  run_free := by
    intro w p x h
    simp only [BaseCallback2_Run_free _ h]

theorem MethodCallback0_2_models_void
    (body : M → Arg0 × Arg1 → C → MethodResult Unit E C)
    (obj : Ptr) (m : M) :
    Models body (⟨obj, m⟩ : MethodCallback0_2 M)
        (fun p (x : Arg0 × Arg1) =>
          BaseCallback2_void.Run (MethodCallback0_2.DoRun body) p x.1 x.2)
        (fun p (x : Arg0 × Arg1) =>
          MethodCallback0_2.DoRun body p x.1 x.2)
        obj m (fun x => (x.1, x.2)) where
  doRun_eq := (MethodCallback0_2_models body obj m).doRun_eq
  run_eq := fun parent w p x h =>
    (BaseCallback2_void_Run_eq _ p _ _ w).trans
      ((MethodCallback0_2_models body obj m).run_eq parent w p x h)
  doRun_free := (MethodCallback0_2_models body obj m).doRun_free
  run_free := fun w p x h =>
    (BaseCallback2_void_Run_eq _ p _ _ w).trans
      ((MethodCallback0_2_models body obj m).run_free w p x h)

end Models0_2

section Models1_2

variable {C M R E A0 Arg0 Arg1 : Type}

theorem MethodCallback1_2_models
    (body : M → A0 × Arg0 × Arg1 → C → MethodResult R E C)
    (obj : Ptr) (m : M) (b0 : A0) :
    Models body (⟨obj, m, b0⟩ : MethodCallback1_2 M A0)
        (fun p (x : Arg0 × Arg1) =>
          BaseCallback2.Run (MethodCallback1_2.DoRun body) p x.1 x.2)
        (fun p (x : Arg0 × Arg1) =>
          MethodCallback1_2.DoRun body p x.1 x.2)
        obj m (fun x => (b0, x.1, x.2)) where
  doRun_eq := by
    intro parent w p x h
    simp only [MethodCallback1_2.DoRun, h]
  run_eq := by
    intro parent w p x h
    simp only [BaseCallback2_Run_eq_finish _ h, MethodCallback1_2.DoRun, h]
  doRun_free := by
    intro w p x h
    simp only [MethodCallback1_2.DoRun, h]
  run_free := by
    intro w p x h
    simp only [BaseCallback2_Run_free _ h]

theorem MethodCallback1_2_models_void
    (body : M → A0 × Arg0 × Arg1 → C → MethodResult Unit E C)
    (obj : Ptr) (m : M) (b0 : A0) :
    Models body (⟨obj, m, b0⟩ : MethodCallback1_2 M A0)
        (fun p (x : Arg0 × Arg1) =>
          BaseCallback2_void.Run (MethodCallback1_2.DoRun body) p x.1 x.2)
        (fun p (x : Arg0 × Arg1) =>
          MethodCallback1_2.DoRun body p x.1 x.2)
        obj m (fun x => (b0, x.1, x.2)) where
  doRun_eq := (MethodCallback1_2_models body obj m b0).doRun_eq
  run_eq := fun parent w p x h =>
    (BaseCallback2_void_Run_eq _ p _ _ w).trans
      ((MethodCallback1_2_models body obj m b0).run_eq parent w p x h)
  doRun_free := (MethodCallback1_2_models body obj m b0).doRun_free
  run_free := fun w p x h =>
    (BaseCallback2_void_Run_eq _ p _ _ w).trans
      ((MethodCallback1_2_models body obj m b0).run_free w p x h)

end Models1_2

section Models0_4

variable {C M R E Arg0 Arg1 Arg2 Arg3 : Type}

theorem MethodCallback0_4_models
    (body : M → Arg0 × Arg1 × Arg2 × Arg3 → C → MethodResult R E C)
    (obj : Ptr) (m : M) :
    Models body (⟨obj, m⟩ : MethodCallback0_4 M)
        (fun p (x : Arg0 × Arg1 × Arg2 × Arg3) =>
          BaseCallback4.Run (MethodCallback0_4.DoRun body) p x.1 x.2.1 x.2.2.1 x.2.2.2)
        (fun p (x : Arg0 × Arg1 × Arg2 × Arg3) =>
          MethodCallback0_4.DoRun body p x.1 x.2.1 x.2.2.1 x.2.2.2)
        obj m (fun x => (x.1, x.2.1, x.2.2.1, x.2.2.2)) where
  doRun_eq := by
    intro parent w p x h
    simp only [MethodCallback0_4.DoRun, h]
  run_eq := by
    intro parent w p x h
    simp only [BaseCallback4_Run_eq_finish _ h, MethodCallback0_4.DoRun, h]
  doRun_free := by
    intro w p x h
    simp only [MethodCallback0_4.DoRun, h]
  run_free := by
    intro w p x h
    simp only [BaseCallback4_Run_free _ h]

theorem MethodCallback0_4_models_void
    (body : M → Arg0 × Arg1 × Arg2 × Arg3 → C → MethodResult Unit E C)
    (obj : Ptr) (m : M) :
    Models body (⟨obj, m⟩ : MethodCallback0_4 M)
        (fun p (x : Arg0 × Arg1 × Arg2 × Arg3) =>
          BaseCallback4_void.Run (MethodCallback0_4.DoRun body) p x.1 x.2.1 x.2.2.1 x.2.2.2)
        (fun p (x : Arg0 × Arg1 × Arg2 × Arg3) =>
          MethodCallback0_4.DoRun body p x.1 x.2.1 x.2.2.1 x.2.2.2)
        obj m (fun x => (x.1, x.2.1, x.2.2.1, x.2.2.2)) where
  doRun_eq := (MethodCallback0_4_models body obj m).doRun_eq
  run_eq := fun parent w p x h =>
    (BaseCallback4_void_Run_eq _ p _ _ _ _ w).trans
      ((MethodCallback0_4_models body obj m).run_eq parent w p x h)
  doRun_free := (MethodCallback0_4_models body obj m).doRun_free
  run_free := fun w p x h =>
    (BaseCallback4_void_Run_eq _ p _ _ _ _ w).trans
      ((MethodCallback0_4_models body obj m).run_free w p x h)

end Models0_4

/-! ## The claims -/

/-- C1: for each supported combination (0,1), (1,1), (2,1), (3,1), (0,2), (1,2), (0,4) of bound and
execution-time arguments, and for the adapter made by `NewCallback` as well as the one made by
`NewSingleCallback`: `Run` calls the stored method on the stored object with exactly the argument
list `(b0, ..., e0, ...)`, bound values first, in order, and returns the value the method
returned; no other call is made.  Each combination is stated for a return type other than `void`
and for `void`. -/
theorem Run_forwards_bound_then_exec_args :
    (∀ (C M R E Arg0 : Type)
        (body : M → Arg0 → C → MethodResult R E C)
        (obj : Ptr) (m : M) (e0 : Arg0),
      ForwardsCall body (NewCallback0_1 · obj m)
        (BaseCallback1.Run (MethodCallback0_1.DoRun body) · e0)
        obj m e0 ∧
      ForwardsCall body (NewSingleCallback0_1 · obj m)
        (BaseCallback1.Run (MethodCallback0_1.DoRun body) · e0)
        obj m e0) ∧
    (∀ (C M E Arg0 : Type)
        (body : M → Arg0 → C → MethodResult Unit E C)
        (obj : Ptr) (m : M) (e0 : Arg0),
      ForwardsCall body (NewCallback0_1 · obj m)
        (BaseCallback1_void.Run (MethodCallback0_1.DoRun body) · e0)
        obj m e0 ∧
      ForwardsCall body (NewSingleCallback0_1 · obj m)
        (BaseCallback1_void.Run (MethodCallback0_1.DoRun body) · e0)
        obj m e0) ∧
    (∀ (C M R E A0 Arg0 : Type)
        (body : M → A0 × Arg0 → C → MethodResult R E C)
        (obj : Ptr) (m : M) (b0 : A0) (e0 : Arg0),
      ForwardsCall body (NewCallback1_1 · obj m b0)
        (BaseCallback1.Run (MethodCallback1_1.DoRun body) · e0)
        obj m (b0, e0) ∧
      ForwardsCall body (NewSingleCallback1_1 · obj m b0)
        (BaseCallback1.Run (MethodCallback1_1.DoRun body) · e0)
        obj m (b0, e0)) ∧
    (∀ (C M E A0 Arg0 : Type)
        (body : M → A0 × Arg0 → C → MethodResult Unit E C)
        (obj : Ptr) (m : M) (b0 : A0) (e0 : Arg0),
      ForwardsCall body (NewCallback1_1 · obj m b0)
        (BaseCallback1_void.Run (MethodCallback1_1.DoRun body) · e0)
        obj m (b0, e0) ∧
      ForwardsCall body (NewSingleCallback1_1 · obj m b0)
        (BaseCallback1_void.Run (MethodCallback1_1.DoRun body) · e0)
        obj m (b0, e0)) ∧
    (∀ (C M R E A0 A1 Arg0 : Type)
        (body : M → A0 × A1 × Arg0 → C → MethodResult R E C)
        (obj : Ptr) (m : M) (b0 : A0) (b1 : A1) (e0 : Arg0),
      ForwardsCall body (NewCallback2_1 · obj m b0 b1)
        (BaseCallback1.Run (MethodCallback2_1.DoRun body) · e0)
        obj m (b0, b1, e0) ∧
      ForwardsCall body (NewSingleCallback2_1 · obj m b0 b1)
        (BaseCallback1.Run (MethodCallback2_1.DoRun body) · e0)
        obj m (b0, b1, e0)) ∧
    (∀ (C M E A0 A1 Arg0 : Type)
        (body : M → A0 × A1 × Arg0 → C → MethodResult Unit E C)
        (obj : Ptr) (m : M) (b0 : A0) (b1 : A1) (e0 : Arg0),
      ForwardsCall body (NewCallback2_1 · obj m b0 b1)
        (BaseCallback1_void.Run (MethodCallback2_1.DoRun body) · e0)
        obj m (b0, b1, e0) ∧
      ForwardsCall body (NewSingleCallback2_1 · obj m b0 b1)
        (BaseCallback1_void.Run (MethodCallback2_1.DoRun body) · e0)
        obj m (b0, b1, e0)) ∧
    (∀ (C M R E A0 A1 A2 Arg0 : Type)
        (body : M → A0 × A1 × A2 × Arg0 → C → MethodResult R E C)
        (obj : Ptr) (m : M) (b0 : A0) (b1 : A1) (b2 : A2) (e0 : Arg0),
      ForwardsCall body (NewCallback3_1 · obj m b0 b1 b2)
        (BaseCallback1.Run (MethodCallback3_1.DoRun body) · e0)
        obj m (b0, b1, b2, e0) ∧
      ForwardsCall body (NewSingleCallback3_1 · obj m b0 b1 b2)
        (BaseCallback1.Run (MethodCallback3_1.DoRun body) · e0)
        obj m (b0, b1, b2, e0)) ∧
    (∀ (C M E A0 A1 A2 Arg0 : Type)
        (body : M → A0 × A1 × A2 × Arg0 → C → MethodResult Unit E C)
        (obj : Ptr) (m : M) (b0 : A0) (b1 : A1) (b2 : A2) (e0 : Arg0),
      ForwardsCall body (NewCallback3_1 · obj m b0 b1 b2)
        (BaseCallback1_void.Run (MethodCallback3_1.DoRun body) · e0)
        obj m (b0, b1, b2, e0) ∧
      ForwardsCall body (NewSingleCallback3_1 · obj m b0 b1 b2)
        (BaseCallback1_void.Run (MethodCallback3_1.DoRun body) · e0)
        obj m (b0, b1, b2, e0)) ∧
    (∀ (C M R E Arg0 Arg1 : Type)
        (body : M → Arg0 × Arg1 → C → MethodResult R E C)
        (obj : Ptr) (m : M) (e0 : Arg0) (e1 : Arg1),
      ForwardsCall body (NewCallback0_2 · obj m)
        (BaseCallback2.Run (MethodCallback0_2.DoRun body) · e0 e1)
        obj m (e0, e1) ∧
      ForwardsCall body (NewSingleCallback0_2 · obj m)
        (BaseCallback2.Run (MethodCallback0_2.DoRun body) · e0 e1)
        obj m (e0, e1)) ∧
    (∀ (C M E Arg0 Arg1 : Type)
        (body : M → Arg0 × Arg1 → C → MethodResult Unit E C)
        (obj : Ptr) (m : M) (e0 : Arg0) (e1 : Arg1),
      ForwardsCall body (NewCallback0_2 · obj m)
        (BaseCallback2_void.Run (MethodCallback0_2.DoRun body) · e0 e1)
        obj m (e0, e1) ∧
      ForwardsCall body (NewSingleCallback0_2 · obj m)
        (BaseCallback2_void.Run (MethodCallback0_2.DoRun body) · e0 e1)
        obj m (e0, e1)) ∧
    (∀ (C M R E A0 Arg0 Arg1 : Type)
        (body : M → A0 × Arg0 × Arg1 → C → MethodResult R E C)
        (obj : Ptr) (m : M) (b0 : A0) (e0 : Arg0) (e1 : Arg1),
      ForwardsCall body (NewCallback1_2 · obj m b0)
        (BaseCallback2.Run (MethodCallback1_2.DoRun body) · e0 e1)
        obj m (b0, e0, e1) ∧
      ForwardsCall body (NewSingleCallback1_2 · obj m b0)
        (BaseCallback2.Run (MethodCallback1_2.DoRun body) · e0 e1)
        obj m (b0, e0, e1)) ∧
    (∀ (C M E A0 Arg0 Arg1 : Type)
        (body : M → A0 × Arg0 × Arg1 → C → MethodResult Unit E C)
        (obj : Ptr) (m : M) (b0 : A0) (e0 : Arg0) (e1 : Arg1),
      ForwardsCall body (NewCallback1_2 · obj m b0)
        (BaseCallback2_void.Run (MethodCallback1_2.DoRun body) · e0 e1)
        obj m (b0, e0, e1) ∧
      ForwardsCall body (NewSingleCallback1_2 · obj m b0)
        (BaseCallback2_void.Run (MethodCallback1_2.DoRun body) · e0 e1)
        obj m (b0, e0, e1)) ∧
    (∀ (C M R E Arg0 Arg1 Arg2 Arg3 : Type)
        (body : M → Arg0 × Arg1 × Arg2 × Arg3 → C → MethodResult R E C)
        (obj : Ptr) (m : M) (e0 : Arg0) (e1 : Arg1) (e2 : Arg2) (e3 : Arg3),
      ForwardsCall body (NewCallback0_4 · obj m)
        (BaseCallback4.Run (MethodCallback0_4.DoRun body) · e0 e1 e2 e3)
        obj m (e0, e1, e2, e3) ∧
      ForwardsCall body (NewSingleCallback0_4 · obj m)
        (BaseCallback4.Run (MethodCallback0_4.DoRun body) · e0 e1 e2 e3)
        obj m (e0, e1, e2, e3)) ∧
    (∀ (C M E Arg0 Arg1 Arg2 Arg3 : Type)
        (body : M → Arg0 × Arg1 × Arg2 × Arg3 → C → MethodResult Unit E C)
        (obj : Ptr) (m : M) (e0 : Arg0) (e1 : Arg1) (e2 : Arg2) (e3 : Arg3),
      ForwardsCall body (NewCallback0_4 · obj m)
        (BaseCallback4_void.Run (MethodCallback0_4.DoRun body) · e0 e1 e2 e3)
        obj m (e0, e1, e2, e3) ∧
      ForwardsCall body (NewSingleCallback0_4 · obj m)
        (BaseCallback4_void.Run (MethodCallback0_4.DoRun body) · e0 e1 e2 e3)
        obj m (e0, e1, e2, e3)) :=
  ⟨fun _ _ _ _ _ body obj m e0 =>
     ⟨(MethodCallback0_1_models body obj m).forwardsCall (fun _ => rfl) e0,
      (MethodCallback0_1_models body obj m).forwardsCall (fun _ => rfl) e0⟩,
   fun _ _ _ _ body obj m e0 =>
     ⟨(MethodCallback0_1_models_void body obj m).forwardsCall (fun _ => rfl) e0,
      (MethodCallback0_1_models_void body obj m).forwardsCall (fun _ => rfl) e0⟩,
   fun _ _ _ _ _ _ body obj m b0 e0 =>
     ⟨(MethodCallback1_1_models body obj m b0).forwardsCall (fun _ => rfl) e0,
      (MethodCallback1_1_models body obj m b0).forwardsCall (fun _ => rfl) e0⟩,
   fun _ _ _ _ _ body obj m b0 e0 =>
     ⟨(MethodCallback1_1_models_void body obj m b0).forwardsCall (fun _ => rfl) e0,
      (MethodCallback1_1_models_void body obj m b0).forwardsCall (fun _ => rfl) e0⟩,
   fun _ _ _ _ _ _ _ body obj m b0 b1 e0 =>
     ⟨(MethodCallback2_1_models body obj m b0 b1).forwardsCall (fun _ => rfl) e0,
      (MethodCallback2_1_models body obj m b0 b1).forwardsCall (fun _ => rfl) e0⟩,
   fun _ _ _ _ _ _ body obj m b0 b1 e0 =>
     ⟨(MethodCallback2_1_models_void body obj m b0 b1).forwardsCall (fun _ => rfl) e0,
      (MethodCallback2_1_models_void body obj m b0 b1).forwardsCall (fun _ => rfl) e0⟩,
   fun _ _ _ _ _ _ _ _ body obj m b0 b1 b2 e0 =>
     ⟨(MethodCallback3_1_models body obj m b0 b1 b2).forwardsCall (fun _ => rfl) e0,
      (MethodCallback3_1_models body obj m b0 b1 b2).forwardsCall (fun _ => rfl) e0⟩,
   fun _ _ _ _ _ _ _ body obj m b0 b1 b2 e0 =>
     ⟨(MethodCallback3_1_models_void body obj m b0 b1 b2).forwardsCall (fun _ => rfl) e0,
      (MethodCallback3_1_models_void body obj m b0 b1 b2).forwardsCall (fun _ => rfl) e0⟩,
   fun _ _ _ _ _ _ body obj m e0 e1 =>
     ⟨(MethodCallback0_2_models body obj m).forwardsCall (fun _ => rfl) (e0, e1),
      (MethodCallback0_2_models body obj m).forwardsCall (fun _ => rfl) (e0, e1)⟩,
   fun _ _ _ _ _ body obj m e0 e1 =>
     ⟨(MethodCallback0_2_models_void body obj m).forwardsCall (fun _ => rfl) (e0, e1),
      (MethodCallback0_2_models_void body obj m).forwardsCall (fun _ => rfl) (e0, e1)⟩,
   fun _ _ _ _ _ _ _ body obj m b0 e0 e1 =>
     ⟨(MethodCallback1_2_models body obj m b0).forwardsCall (fun _ => rfl) (e0, e1),
      (MethodCallback1_2_models body obj m b0).forwardsCall (fun _ => rfl) (e0, e1)⟩,
   fun _ _ _ _ _ _ body obj m b0 e0 e1 =>
     ⟨(MethodCallback1_2_models_void body obj m b0).forwardsCall (fun _ => rfl) (e0, e1),
      (MethodCallback1_2_models_void body obj m b0).forwardsCall (fun _ => rfl) (e0, e1)⟩,
   fun _ _ _ _ _ _ _ _ body obj m e0 e1 e2 e3 =>
     ⟨(MethodCallback0_4_models body obj m).forwardsCall (fun _ => rfl) (e0, e1, e2, e3),
      (MethodCallback0_4_models body obj m).forwardsCall (fun _ => rfl) (e0, e1, e2, e3)⟩,
   fun _ _ _ _ _ _ _ body obj m e0 e1 e2 e3 =>
     ⟨(MethodCallback0_4_models_void body obj m).forwardsCall (fun _ => rfl) (e0, e1, e2, e3),
      (MethodCallback0_4_models_void body obj m).forwardsCall (fun _ => rfl) (e0, e1, e2, e3)⟩⟩

/-- C2: a repeatable adapter made by `NewCallback`, run `n` times with execution-time arguments
`x1..xn` on which the method returns: the method is called exactly `n` times, the `i`-th call
receives the bound values followed by `xi`, the `i`-th `Run` returns the `i`-th result of the
method, and after each run the adapter is still in the store, unreleased and unchanged.  Each
combination is stated for a return type other than `void` and for `void`. -/
theorem repeatable_Run_calls_method_each_time :
    (∀ (C M R E Arg0 : Type)
        (body : M → Arg0 → C → MethodResult R E C)
        (obj : Ptr) (m : M),
      RepeatableSpec body (NewCallback0_1 · obj m)
        (BaseCallback1.Run (MethodCallback0_1.DoRun body))
        obj m (fun x => x)) ∧
    (∀ (C M E Arg0 : Type)
        (body : M → Arg0 → C → MethodResult Unit E C)
        (obj : Ptr) (m : M),
      RepeatableSpec body (NewCallback0_1 · obj m)
        (BaseCallback1_void.Run (MethodCallback0_1.DoRun body))
        obj m (fun x => x)) ∧
    (∀ (C M R E A0 Arg0 : Type)
        (body : M → A0 × Arg0 → C → MethodResult R E C)
        (obj : Ptr) (m : M) (b0 : A0),
      RepeatableSpec body (NewCallback1_1 · obj m b0)
        (BaseCallback1.Run (MethodCallback1_1.DoRun body))
        obj m (fun x => (b0, x))) ∧
    (∀ (C M E A0 Arg0 : Type)
        (body : M → A0 × Arg0 → C → MethodResult Unit E C)
        (obj : Ptr) (m : M) (b0 : A0),
      RepeatableSpec body (NewCallback1_1 · obj m b0)
        (BaseCallback1_void.Run (MethodCallback1_1.DoRun body))
        obj m (fun x => (b0, x))) ∧
    (∀ (C M R E A0 A1 Arg0 : Type)
        (body : M → A0 × A1 × Arg0 → C → MethodResult R E C)
        (obj : Ptr) (m : M) (b0 : A0) (b1 : A1),
      RepeatableSpec body (NewCallback2_1 · obj m b0 b1)
        (BaseCallback1.Run (MethodCallback2_1.DoRun body))
        obj m (fun x => (b0, b1, x))) ∧
    (∀ (C M E A0 A1 Arg0 : Type)
        (body : M → A0 × A1 × Arg0 → C → MethodResult Unit E C)
        (obj : Ptr) (m : M) (b0 : A0) (b1 : A1),
      RepeatableSpec body (NewCallback2_1 · obj m b0 b1)
        (BaseCallback1_void.Run (MethodCallback2_1.DoRun body))
        obj m (fun x => (b0, b1, x))) ∧
    (∀ (C M R E A0 A1 A2 Arg0 : Type)
        (body : M → A0 × A1 × A2 × Arg0 → C → MethodResult R E C)
        (obj : Ptr) (m : M) (b0 : A0) (b1 : A1) (b2 : A2),
      RepeatableSpec body (NewCallback3_1 · obj m b0 b1 b2)
        (BaseCallback1.Run (MethodCallback3_1.DoRun body))
        obj m (fun x => (b0, b1, b2, x))) ∧
    (∀ (C M E A0 A1 A2 Arg0 : Type)
        (body : M → A0 × A1 × A2 × Arg0 → C → MethodResult Unit E C)
        (obj : Ptr) (m : M) (b0 : A0) (b1 : A1) (b2 : A2),
      RepeatableSpec body (NewCallback3_1 · obj m b0 b1 b2)
        (BaseCallback1_void.Run (MethodCallback3_1.DoRun body))
        obj m (fun x => (b0, b1, b2, x))) ∧
    (∀ (C M R E Arg0 Arg1 : Type)
        (body : M → Arg0 × Arg1 → C → MethodResult R E C)
        (obj : Ptr) (m : M),
      RepeatableSpec body (NewCallback0_2 · obj m)
        (fun p (x : Arg0 × Arg1) =>
          BaseCallback2.Run (MethodCallback0_2.DoRun body) p x.1 x.2)
        obj m (fun x => (x.1, x.2))) ∧
    (∀ (C M E Arg0 Arg1 : Type)
        (body : M → Arg0 × Arg1 → C → MethodResult Unit E C)
        (obj : Ptr) (m : M),
      RepeatableSpec body (NewCallback0_2 · obj m)
        (fun p (x : Arg0 × Arg1) =>
          BaseCallback2_void.Run (MethodCallback0_2.DoRun body) p x.1 x.2)
        obj m (fun x => (x.1, x.2))) ∧
    (∀ (C M R E A0 Arg0 Arg1 : Type)
        (body : M → A0 × Arg0 × Arg1 → C → MethodResult R E C)
        (obj : Ptr) (m : M) (b0 : A0),
      RepeatableSpec body (NewCallback1_2 · obj m b0)
        (fun p (x : Arg0 × Arg1) =>
          BaseCallback2.Run (MethodCallback1_2.DoRun body) p x.1 x.2)
        obj m (fun x => (b0, x.1, x.2))) ∧
    (∀ (C M E A0 Arg0 Arg1 : Type)
        (body : M → A0 × Arg0 × Arg1 → C → MethodResult Unit E C)
        (obj : Ptr) (m : M) (b0 : A0),
      RepeatableSpec body (NewCallback1_2 · obj m b0)
        (fun p (x : Arg0 × Arg1) =>
          BaseCallback2_void.Run (MethodCallback1_2.DoRun body) p x.1 x.2)
        obj m (fun x => (b0, x.1, x.2))) ∧
    (∀ (C M R E Arg0 Arg1 Arg2 Arg3 : Type)
        (body : M → Arg0 × Arg1 × Arg2 × Arg3 → C → MethodResult R E C)
        (obj : Ptr) (m : M),
      RepeatableSpec body (NewCallback0_4 · obj m)
        (fun p (x : Arg0 × Arg1 × Arg2 × Arg3) =>
          BaseCallback4.Run (MethodCallback0_4.DoRun body) p x.1 x.2.1 x.2.2.1 x.2.2.2)
        obj m (fun x => (x.1, x.2.1, x.2.2.1, x.2.2.2))) ∧
    (∀ (C M E Arg0 Arg1 Arg2 Arg3 : Type)
        (body : M → Arg0 × Arg1 × Arg2 × Arg3 → C → MethodResult Unit E C)
        (obj : Ptr) (m : M),
      RepeatableSpec body (NewCallback0_4 · obj m)
        (fun p (x : Arg0 × Arg1 × Arg2 × Arg3) =>
          BaseCallback4_void.Run (MethodCallback0_4.DoRun body) p x.1 x.2.1 x.2.2.1 x.2.2.2)
        obj m (fun x => (x.1, x.2.1, x.2.2.1, x.2.2.2))) :=
  ⟨fun _ _ _ _ _ body obj m =>
     (MethodCallback0_1_models body obj m).repeatableSpec (fun _ => rfl),
   fun _ _ _ _ body obj m =>
     (MethodCallback0_1_models_void body obj m).repeatableSpec (fun _ => rfl),
   fun _ _ _ _ _ _ body obj m b0 =>
     (MethodCallback1_1_models body obj m b0).repeatableSpec (fun _ => rfl),
   fun _ _ _ _ _ body obj m b0 =>
     (MethodCallback1_1_models_void body obj m b0).repeatableSpec (fun _ => rfl),
   fun _ _ _ _ _ _ _ body obj m b0 b1 =>
     (MethodCallback2_1_models body obj m b0 b1).repeatableSpec (fun _ => rfl),
   fun _ _ _ _ _ _ body obj m b0 b1 =>
     (MethodCallback2_1_models_void body obj m b0 b1).repeatableSpec (fun _ => rfl),
   fun _ _ _ _ _ _ _ _ body obj m b0 b1 b2 =>
     (MethodCallback3_1_models body obj m b0 b1 b2).repeatableSpec (fun _ => rfl),
   fun _ _ _ _ _ _ _ body obj m b0 b1 b2 =>
     (MethodCallback3_1_models_void body obj m b0 b1 b2).repeatableSpec (fun _ => rfl),
   fun _ _ _ _ _ _ body obj m =>
     (MethodCallback0_2_models body obj m).repeatableSpec (fun _ => rfl),
   fun _ _ _ _ _ body obj m =>
     (MethodCallback0_2_models_void body obj m).repeatableSpec (fun _ => rfl),
   fun _ _ _ _ _ _ _ body obj m b0 =>
     (MethodCallback1_2_models body obj m b0).repeatableSpec (fun _ => rfl),
   fun _ _ _ _ _ _ body obj m b0 =>
     (MethodCallback1_2_models_void body obj m b0).repeatableSpec (fun _ => rfl),
   fun _ _ _ _ _ _ _ _ body obj m =>
     (MethodCallback0_4_models body obj m).repeatableSpec (fun _ => rfl),
   fun _ _ _ _ _ _ _ body obj m =>
     (MethodCallback0_4_models_void body obj m).repeatableSpec (fun _ => rfl)⟩

/-- C3: a single use adapter with a return type other than `void`, when the method returns
normally: one `Run` makes exactly one call of the method, then deletes the adapter exactly once,
and returns the value the method produced; the release comes after the call and is the last
action of `Run`, whose steps are all defined (the released adapter is not read). -/
theorem single_use_Run_calls_once_then_releases :
    (∀ (C M R E Arg0 : Type)
        (body : M → Arg0 → C → MethodResult R E C)
        (obj : Ptr) (m : M) (e0 : Arg0),
      SingleUseSpec body (NewSingleCallback0_1 · obj m)
        (BaseCallback1.Run (MethodCallback0_1.DoRun body) · e0)
        obj m e0) ∧
    (∀ (C M R E A0 Arg0 : Type)
        (body : M → A0 × Arg0 → C → MethodResult R E C)
        (obj : Ptr) (m : M) (b0 : A0) (e0 : Arg0),
      SingleUseSpec body (NewSingleCallback1_1 · obj m b0)
        (BaseCallback1.Run (MethodCallback1_1.DoRun body) · e0)
        obj m (b0, e0)) ∧
    (∀ (C M R E A0 A1 Arg0 : Type)
        (body : M → A0 × A1 × Arg0 → C → MethodResult R E C)
        (obj : Ptr) (m : M) (b0 : A0) (b1 : A1) (e0 : Arg0),
      SingleUseSpec body (NewSingleCallback2_1 · obj m b0 b1)
        (BaseCallback1.Run (MethodCallback2_1.DoRun body) · e0)
        obj m (b0, b1, e0)) ∧
    (∀ (C M R E A0 A1 A2 Arg0 : Type)
        (body : M → A0 × A1 × A2 × Arg0 → C → MethodResult R E C)
        (obj : Ptr) (m : M) (b0 : A0) (b1 : A1) (b2 : A2) (e0 : Arg0),
      SingleUseSpec body (NewSingleCallback3_1 · obj m b0 b1 b2)
        (BaseCallback1.Run (MethodCallback3_1.DoRun body) · e0)
        obj m (b0, b1, b2, e0)) ∧
    (∀ (C M R E Arg0 Arg1 : Type)
        (body : M → Arg0 × Arg1 → C → MethodResult R E C)
        (obj : Ptr) (m : M) (e0 : Arg0) (e1 : Arg1),
      SingleUseSpec body (NewSingleCallback0_2 · obj m)
        (BaseCallback2.Run (MethodCallback0_2.DoRun body) · e0 e1)
        obj m (e0, e1)) ∧
    (∀ (C M R E A0 Arg0 Arg1 : Type)
        (body : M → A0 × Arg0 × Arg1 → C → MethodResult R E C)
        (obj : Ptr) (m : M) (b0 : A0) (e0 : Arg0) (e1 : Arg1),
      SingleUseSpec body (NewSingleCallback1_2 · obj m b0)
        (BaseCallback2.Run (MethodCallback1_2.DoRun body) · e0 e1)
        obj m (b0, e0, e1)) ∧
    (∀ (C M R E Arg0 Arg1 Arg2 Arg3 : Type)
        (body : M → Arg0 × Arg1 × Arg2 × Arg3 → C → MethodResult R E C)
        (obj : Ptr) (m : M) (e0 : Arg0) (e1 : Arg1) (e2 : Arg2) (e3 : Arg3),
      SingleUseSpec body (NewSingleCallback0_4 · obj m)
        (BaseCallback4.Run (MethodCallback0_4.DoRun body) · e0 e1 e2 e3)
        obj m (e0, e1, e2, e3)) :=
  ⟨fun _ _ _ _ _ body obj m e0 =>
     (MethodCallback0_1_models body obj m).singleUseSpec (fun _ => rfl) e0,
   fun _ _ _ _ _ _ body obj m b0 e0 =>
     (MethodCallback1_1_models body obj m b0).singleUseSpec (fun _ => rfl) e0,
   fun _ _ _ _ _ _ _ body obj m b0 b1 e0 =>
     (MethodCallback2_1_models body obj m b0 b1).singleUseSpec (fun _ => rfl) e0,
   fun _ _ _ _ _ _ _ _ body obj m b0 b1 b2 e0 =>
     (MethodCallback3_1_models body obj m b0 b1 b2).singleUseSpec (fun _ => rfl) e0,
   fun _ _ _ _ _ _ body obj m e0 e1 =>
     (MethodCallback0_2_models body obj m).singleUseSpec (fun _ => rfl) (e0, e1),
   fun _ _ _ _ _ _ _ body obj m b0 e0 e1 =>
     (MethodCallback1_2_models body obj m b0).singleUseSpec (fun _ => rfl) (e0, e1),
   fun _ _ _ _ _ _ _ _ body obj m e0 e1 e2 e3 =>
     (MethodCallback0_4_models body obj m).singleUseSpec (fun _ => rfl) (e0, e1, e2, e3)⟩

/-- C4: a single use adapter with return type `void`, when the method returns normally: `Run`
calls the method exactly once with the forwarded arguments, returns no value, deletes the adapter
exactly once after the call and before it returns, and a further `Run` of the adapter is
undefined. -/
theorem void_single_use_Run_calls_once_then_releases :
    (∀ (C M E Arg0 : Type)
        (body : M → Arg0 → C → MethodResult Unit E C)
        (obj : Ptr) (m : M) (e0 : Arg0),
      SingleUseVoidSpec body (NewSingleCallback0_1 · obj m)
        (BaseCallback1_void.Run (MethodCallback0_1.DoRun body) · e0)
        obj m e0) ∧
    (∀ (C M E A0 Arg0 : Type)
        (body : M → A0 × Arg0 → C → MethodResult Unit E C)
        (obj : Ptr) (m : M) (b0 : A0) (e0 : Arg0),
      SingleUseVoidSpec body (NewSingleCallback1_1 · obj m b0)
        (BaseCallback1_void.Run (MethodCallback1_1.DoRun body) · e0)
        obj m (b0, e0)) ∧
    (∀ (C M E A0 A1 Arg0 : Type)
        (body : M → A0 × A1 × Arg0 → C → MethodResult Unit E C)
        (obj : Ptr) (m : M) (b0 : A0) (b1 : A1) (e0 : Arg0),
      SingleUseVoidSpec body (NewSingleCallback2_1 · obj m b0 b1)
        (BaseCallback1_void.Run (MethodCallback2_1.DoRun body) · e0)
        obj m (b0, b1, e0)) ∧
    (∀ (C M E A0 A1 A2 Arg0 : Type)
        (body : M → A0 × A1 × A2 × Arg0 → C → MethodResult Unit E C)
        (obj : Ptr) (m : M) (b0 : A0) (b1 : A1) (b2 : A2) (e0 : Arg0),
      SingleUseVoidSpec body (NewSingleCallback3_1 · obj m b0 b1 b2)
        (BaseCallback1_void.Run (MethodCallback3_1.DoRun body) · e0)
        obj m (b0, b1, b2, e0)) ∧
    (∀ (C M E Arg0 Arg1 : Type)
        (body : M → Arg0 × Arg1 → C → MethodResult Unit E C)
        (obj : Ptr) (m : M) (e0 : Arg0) (e1 : Arg1),
      SingleUseVoidSpec body (NewSingleCallback0_2 · obj m)
        (BaseCallback2_void.Run (MethodCallback0_2.DoRun body) · e0 e1)
        obj m (e0, e1)) ∧
    (∀ (C M E A0 Arg0 Arg1 : Type)
        (body : M → A0 × Arg0 × Arg1 → C → MethodResult Unit E C)
        (obj : Ptr) (m : M) (b0 : A0) (e0 : Arg0) (e1 : Arg1),
      SingleUseVoidSpec body (NewSingleCallback1_2 · obj m b0)
        (BaseCallback2_void.Run (MethodCallback1_2.DoRun body) · e0 e1)
        obj m (b0, e0, e1)) ∧
    (∀ (C M E Arg0 Arg1 Arg2 Arg3 : Type)
        (body : M → Arg0 × Arg1 × Arg2 × Arg3 → C → MethodResult Unit E C)
        (obj : Ptr) (m : M) (e0 : Arg0) (e1 : Arg1) (e2 : Arg2) (e3 : Arg3),
      SingleUseVoidSpec body (NewSingleCallback0_4 · obj m)
        (BaseCallback4_void.Run (MethodCallback0_4.DoRun body) · e0 e1 e2 e3)
        obj m (e0, e1, e2, e3)) :=
  ⟨fun _ _ _ _ body obj m e0 =>
     (MethodCallback0_1_models_void body obj m).singleUseVoidSpec (fun _ => rfl) e0,
   fun _ _ _ _ _ body obj m b0 e0 =>
     (MethodCallback1_1_models_void body obj m b0).singleUseVoidSpec (fun _ => rfl) e0,
   fun _ _ _ _ _ _ body obj m b0 b1 e0 =>
     (MethodCallback2_1_models_void body obj m b0 b1).singleUseVoidSpec (fun _ => rfl) e0,
   fun _ _ _ _ _ _ _ body obj m b0 b1 b2 e0 =>
     (MethodCallback3_1_models_void body obj m b0 b1 b2).singleUseVoidSpec (fun _ => rfl) e0,
   fun _ _ _ _ _ body obj m e0 e1 =>
     (MethodCallback0_2_models_void body obj m).singleUseVoidSpec (fun _ => rfl) (e0, e1),
   fun _ _ _ _ _ _ body obj m b0 e0 e1 =>
     (MethodCallback1_2_models_void body obj m b0).singleUseVoidSpec (fun _ => rfl) (e0, e1),
   fun _ _ _ _ _ _ _ body obj m e0 e1 e2 e3 =>
     (MethodCallback0_4_models_void body obj m).singleUseVoidSpec (fun _ => rfl) (e0, e1, e2, e3)⟩

/-- C5: for each supported combination, with a return type other than `void` and with `void`: the
factories store the target, the method and the bound values they are given, and no sequence of
`Run` and `DoRun` operations, whatever the execution-time arguments, changes them: the adapter
holds the same data members for as long as it is in the store. -/
theorem bound_values_stored_and_immutable :
    (∀ (C M R E Arg0 : Type)
        (body : M → Arg0 → C → MethodResult R E C)
        (obj : Ptr) (m : M),
      BoundValuesImmutable (⟨obj, m⟩ : MethodCallback0_1 M)
        (NewCallback0_1 · obj m) (NewSingleCallback0_1 · obj m)
        (BaseCallback1.Run (MethodCallback0_1.DoRun body))
        (MethodCallback0_1.DoRun body)) ∧
    (∀ (C M E Arg0 : Type)
        (body : M → Arg0 → C → MethodResult Unit E C)
        (obj : Ptr) (m : M),
      BoundValuesImmutable (⟨obj, m⟩ : MethodCallback0_1 M)
        (NewCallback0_1 · obj m) (NewSingleCallback0_1 · obj m)
        (BaseCallback1_void.Run (MethodCallback0_1.DoRun body))
        (MethodCallback0_1.DoRun body)) ∧
    (∀ (C M R E A0 Arg0 : Type)
        (body : M → A0 × Arg0 → C → MethodResult R E C)
        (obj : Ptr) (m : M) (b0 : A0),
      BoundValuesImmutable (⟨obj, m, b0⟩ : MethodCallback1_1 M A0)
        (NewCallback1_1 · obj m b0) (NewSingleCallback1_1 · obj m b0)
        (BaseCallback1.Run (MethodCallback1_1.DoRun body))
        (MethodCallback1_1.DoRun body)) ∧
    (∀ (C M E A0 Arg0 : Type)
        (body : M → A0 × Arg0 → C → MethodResult Unit E C)
        (obj : Ptr) (m : M) (b0 : A0),
      BoundValuesImmutable (⟨obj, m, b0⟩ : MethodCallback1_1 M A0)
        (NewCallback1_1 · obj m b0) (NewSingleCallback1_1 · obj m b0)
        (BaseCallback1_void.Run (MethodCallback1_1.DoRun body))
        (MethodCallback1_1.DoRun body)) ∧
    (∀ (C M R E A0 A1 Arg0 : Type)
        (body : M → A0 × A1 × Arg0 → C → MethodResult R E C)
        (obj : Ptr) (m : M) (b0 : A0) (b1 : A1),
      BoundValuesImmutable (⟨obj, m, b0, b1⟩ : MethodCallback2_1 M A0 A1)
        (NewCallback2_1 · obj m b0 b1) (NewSingleCallback2_1 · obj m b0 b1)
        (BaseCallback1.Run (MethodCallback2_1.DoRun body))
        (MethodCallback2_1.DoRun body)) ∧
    (∀ (C M E A0 A1 Arg0 : Type)
        (body : M → A0 × A1 × Arg0 → C → MethodResult Unit E C)
        (obj : Ptr) (m : M) (b0 : A0) (b1 : A1),
      BoundValuesImmutable (⟨obj, m, b0, b1⟩ : MethodCallback2_1 M A0 A1)
        (NewCallback2_1 · obj m b0 b1) (NewSingleCallback2_1 · obj m b0 b1)
        (BaseCallback1_void.Run (MethodCallback2_1.DoRun body))
        (MethodCallback2_1.DoRun body)) ∧
    (∀ (C M R E A0 A1 A2 Arg0 : Type)
        (body : M → A0 × A1 × A2 × Arg0 → C → MethodResult R E C)
        (obj : Ptr) (m : M) (b0 : A0) (b1 : A1) (b2 : A2),
      BoundValuesImmutable (⟨obj, m, b0, b1, b2⟩ : MethodCallback3_1 M A0 A1 A2)
        (NewCallback3_1 · obj m b0 b1 b2) (NewSingleCallback3_1 · obj m b0 b1 b2)
        (BaseCallback1.Run (MethodCallback3_1.DoRun body))
        (MethodCallback3_1.DoRun body)) ∧
    (∀ (C M E A0 A1 A2 Arg0 : Type)
        (body : M → A0 × A1 × A2 × Arg0 → C → MethodResult Unit E C)
        (obj : Ptr) (m : M) (b0 : A0) (b1 : A1) (b2 : A2),
      BoundValuesImmutable (⟨obj, m, b0, b1, b2⟩ : MethodCallback3_1 M A0 A1 A2)
        (NewCallback3_1 · obj m b0 b1 b2) (NewSingleCallback3_1 · obj m b0 b1 b2)
        (BaseCallback1_void.Run (MethodCallback3_1.DoRun body))
        (MethodCallback3_1.DoRun body)) ∧
    (∀ (C M R E Arg0 Arg1 : Type)
        (body : M → Arg0 × Arg1 → C → MethodResult R E C)
        (obj : Ptr) (m : M),
      BoundValuesImmutable (⟨obj, m⟩ : MethodCallback0_2 M)
        (NewCallback0_2 · obj m) (NewSingleCallback0_2 · obj m)
        (fun p (x : Arg0 × Arg1) =>
          BaseCallback2.Run (MethodCallback0_2.DoRun body) p x.1 x.2)
        (fun p (x : Arg0 × Arg1) =>
          MethodCallback0_2.DoRun body p x.1 x.2)) ∧
    (∀ (C M E Arg0 Arg1 : Type)
        (body : M → Arg0 × Arg1 → C → MethodResult Unit E C)
        (obj : Ptr) (m : M),
      BoundValuesImmutable (⟨obj, m⟩ : MethodCallback0_2 M)
        (NewCallback0_2 · obj m) (NewSingleCallback0_2 · obj m)
        (fun p (x : Arg0 × Arg1) =>
          BaseCallback2_void.Run (MethodCallback0_2.DoRun body) p x.1 x.2)
        (fun p (x : Arg0 × Arg1) =>
          MethodCallback0_2.DoRun body p x.1 x.2)) ∧
    (∀ (C M R E A0 Arg0 Arg1 : Type)
        (body : M → A0 × Arg0 × Arg1 → C → MethodResult R E C)
        (obj : Ptr) (m : M) (b0 : A0),
      BoundValuesImmutable (⟨obj, m, b0⟩ : MethodCallback1_2 M A0)
        (NewCallback1_2 · obj m b0) (NewSingleCallback1_2 · obj m b0)
        (fun p (x : Arg0 × Arg1) =>
          BaseCallback2.Run (MethodCallback1_2.DoRun body) p x.1 x.2)
        (fun p (x : Arg0 × Arg1) =>
          MethodCallback1_2.DoRun body p x.1 x.2)) ∧
    (∀ (C M E A0 Arg0 Arg1 : Type)
        (body : M → A0 × Arg0 × Arg1 → C → MethodResult Unit E C)
        (obj : Ptr) (m : M) (b0 : A0),
      BoundValuesImmutable (⟨obj, m, b0⟩ : MethodCallback1_2 M A0)
        (NewCallback1_2 · obj m b0) (NewSingleCallback1_2 · obj m b0)
        (fun p (x : Arg0 × Arg1) =>
          BaseCallback2_void.Run (MethodCallback1_2.DoRun body) p x.1 x.2)
        (fun p (x : Arg0 × Arg1) =>
          MethodCallback1_2.DoRun body p x.1 x.2)) ∧
    (∀ (C M R E Arg0 Arg1 Arg2 Arg3 : Type)
        (body : M → Arg0 × Arg1 × Arg2 × Arg3 → C → MethodResult R E C)
        (obj : Ptr) (m : M),
      BoundValuesImmutable (⟨obj, m⟩ : MethodCallback0_4 M)
        (NewCallback0_4 · obj m) (NewSingleCallback0_4 · obj m)
        (fun p (x : Arg0 × Arg1 × Arg2 × Arg3) =>
          BaseCallback4.Run (MethodCallback0_4.DoRun body) p x.1 x.2.1 x.2.2.1 x.2.2.2)
        (fun p (x : Arg0 × Arg1 × Arg2 × Arg3) =>
          MethodCallback0_4.DoRun body p x.1 x.2.1 x.2.2.1 x.2.2.2)) ∧
    (∀ (C M E Arg0 Arg1 Arg2 Arg3 : Type)
        (body : M → Arg0 × Arg1 × Arg2 × Arg3 → C → MethodResult Unit E C)
        (obj : Ptr) (m : M),
      BoundValuesImmutable (⟨obj, m⟩ : MethodCallback0_4 M)
        (NewCallback0_4 · obj m) (NewSingleCallback0_4 · obj m)
        (fun p (x : Arg0 × Arg1 × Arg2 × Arg3) =>
          BaseCallback4_void.Run (MethodCallback0_4.DoRun body) p x.1 x.2.1 x.2.2.1 x.2.2.2)
        (fun p (x : Arg0 × Arg1 × Arg2 × Arg3) =>
          MethodCallback0_4.DoRun body p x.1 x.2.1 x.2.2.1 x.2.2.2)) :=
  ⟨fun _ _ _ _ _ body obj m =>
     (MethodCallback0_1_models body obj m).boundValuesImmutable
       (fun _ => rfl) (fun _ => rfl),
   fun _ _ _ _ body obj m =>
     (MethodCallback0_1_models_void body obj m).boundValuesImmutable
       (fun _ => rfl) (fun _ => rfl),
   fun _ _ _ _ _ _ body obj m b0 =>
     (MethodCallback1_1_models body obj m b0).boundValuesImmutable
       (fun _ => rfl) (fun _ => rfl),
   fun _ _ _ _ _ body obj m b0 =>
     (MethodCallback1_1_models_void body obj m b0).boundValuesImmutable
       (fun _ => rfl) (fun _ => rfl),
   fun _ _ _ _ _ _ _ body obj m b0 b1 =>
     (MethodCallback2_1_models body obj m b0 b1).boundValuesImmutable
       (fun _ => rfl) (fun _ => rfl),
   fun _ _ _ _ _ _ body obj m b0 b1 =>
     (MethodCallback2_1_models_void body obj m b0 b1).boundValuesImmutable
       (fun _ => rfl) (fun _ => rfl),
   fun _ _ _ _ _ _ _ _ body obj m b0 b1 b2 =>
     (MethodCallback3_1_models body obj m b0 b1 b2).boundValuesImmutable
       (fun _ => rfl) (fun _ => rfl),
   fun _ _ _ _ _ _ _ body obj m b0 b1 b2 =>
     (MethodCallback3_1_models_void body obj m b0 b1 b2).boundValuesImmutable
       (fun _ => rfl) (fun _ => rfl),
   fun _ _ _ _ _ _ body obj m =>
     (MethodCallback0_2_models body obj m).boundValuesImmutable
       (fun _ => rfl) (fun _ => rfl),
   fun _ _ _ _ _ body obj m =>
     (MethodCallback0_2_models_void body obj m).boundValuesImmutable
       (fun _ => rfl) (fun _ => rfl),
   fun _ _ _ _ _ _ _ body obj m b0 =>
     (MethodCallback1_2_models body obj m b0).boundValuesImmutable
       (fun _ => rfl) (fun _ => rfl),
   fun _ _ _ _ _ _ body obj m b0 =>
     (MethodCallback1_2_models_void body obj m b0).boundValuesImmutable
       (fun _ => rfl) (fun _ => rfl),
   fun _ _ _ _ _ _ _ _ body obj m =>
     (MethodCallback0_4_models body obj m).boundValuesImmutable
       (fun _ => rfl) (fun _ => rfl),
   fun _ _ _ _ _ _ _ body obj m =>
     (MethodCallback0_4_models_void body obj m).boundValuesImmutable
       (fun _ => rfl) (fun _ => rfl)⟩

/-- C6: the adapter does not own its target.  For each supported combination and either `Parent`:
deleting the adapter leaves the target object, and every other cell, as it was; and `Run`,
including the release at the end of a single use `Run`, leaves the target in the state in which
the invoked method left it and every cell other than the target and the adapter untouched. -/
theorem adapter_does_not_own_target :
    (∀ (C M R E Arg0 : Type)
        (body : M → Arg0 → C → MethodResult R E C)
        (obj : Ptr) (m : M) (e0 : Arg0),
      TargetNotOwned body (⟨obj, m⟩ : MethodCallback0_1 M)
        (BaseCallback1.Run (MethodCallback0_1.DoRun body) · e0)
        obj m e0) ∧
    (∀ (C M E Arg0 : Type)
        (body : M → Arg0 → C → MethodResult Unit E C)
        (obj : Ptr) (m : M) (e0 : Arg0),
      TargetNotOwned body (⟨obj, m⟩ : MethodCallback0_1 M)
        (BaseCallback1_void.Run (MethodCallback0_1.DoRun body) · e0)
        obj m e0) ∧
    (∀ (C M R E A0 Arg0 : Type)
        (body : M → A0 × Arg0 → C → MethodResult R E C)
        (obj : Ptr) (m : M) (b0 : A0) (e0 : Arg0),
      TargetNotOwned body (⟨obj, m, b0⟩ : MethodCallback1_1 M A0)
        (BaseCallback1.Run (MethodCallback1_1.DoRun body) · e0)
        obj m (b0, e0)) ∧
    (∀ (C M E A0 Arg0 : Type)
        (body : M → A0 × Arg0 → C → MethodResult Unit E C)
        (obj : Ptr) (m : M) (b0 : A0) (e0 : Arg0),
      TargetNotOwned body (⟨obj, m, b0⟩ : MethodCallback1_1 M A0)
        (BaseCallback1_void.Run (MethodCallback1_1.DoRun body) · e0)
        obj m (b0, e0)) ∧
    (∀ (C M R E A0 A1 Arg0 : Type)
        (body : M → A0 × A1 × Arg0 → C → MethodResult R E C)
        (obj : Ptr) (m : M) (b0 : A0) (b1 : A1) (e0 : Arg0),
      TargetNotOwned body (⟨obj, m, b0, b1⟩ : MethodCallback2_1 M A0 A1)
        (BaseCallback1.Run (MethodCallback2_1.DoRun body) · e0)
        obj m (b0, b1, e0)) ∧
    (∀ (C M E A0 A1 Arg0 : Type)
        (body : M → A0 × A1 × Arg0 → C → MethodResult Unit E C)
        (obj : Ptr) (m : M) (b0 : A0) (b1 : A1) (e0 : Arg0),
      TargetNotOwned body (⟨obj, m, b0, b1⟩ : MethodCallback2_1 M A0 A1)
        (BaseCallback1_void.Run (MethodCallback2_1.DoRun body) · e0)
        obj m (b0, b1, e0)) ∧
    (∀ (C M R E A0 A1 A2 Arg0 : Type)
        (body : M → A0 × A1 × A2 × Arg0 → C → MethodResult R E C)
        (obj : Ptr) (m : M) (b0 : A0) (b1 : A1) (b2 : A2) (e0 : Arg0),
      TargetNotOwned body (⟨obj, m, b0, b1, b2⟩ : MethodCallback3_1 M A0 A1 A2)
        (BaseCallback1.Run (MethodCallback3_1.DoRun body) · e0)
        obj m (b0, b1, b2, e0)) ∧
    (∀ (C M E A0 A1 A2 Arg0 : Type)
        (body : M → A0 × A1 × A2 × Arg0 → C → MethodResult Unit E C)
        (obj : Ptr) (m : M) (b0 : A0) (b1 : A1) (b2 : A2) (e0 : Arg0),
      TargetNotOwned body (⟨obj, m, b0, b1, b2⟩ : MethodCallback3_1 M A0 A1 A2)
        (BaseCallback1_void.Run (MethodCallback3_1.DoRun body) · e0)
        obj m (b0, b1, b2, e0)) ∧
    (∀ (C M R E Arg0 Arg1 : Type)
        (body : M → Arg0 × Arg1 → C → MethodResult R E C)
        (obj : Ptr) (m : M) (e0 : Arg0) (e1 : Arg1),
      TargetNotOwned body (⟨obj, m⟩ : MethodCallback0_2 M)
        (BaseCallback2.Run (MethodCallback0_2.DoRun body) · e0 e1)
        obj m (e0, e1)) ∧
    (∀ (C M E Arg0 Arg1 : Type)
        (body : M → Arg0 × Arg1 → C → MethodResult Unit E C)
        (obj : Ptr) (m : M) (e0 : Arg0) (e1 : Arg1),
      TargetNotOwned body (⟨obj, m⟩ : MethodCallback0_2 M)
        (BaseCallback2_void.Run (MethodCallback0_2.DoRun body) · e0 e1)
        obj m (e0, e1)) ∧
    (∀ (C M R E A0 Arg0 Arg1 : Type)
        (body : M → A0 × Arg0 × Arg1 → C → MethodResult R E C)
        (obj : Ptr) (m : M) (b0 : A0) (e0 : Arg0) (e1 : Arg1),
      TargetNotOwned body (⟨obj, m, b0⟩ : MethodCallback1_2 M A0)
        (BaseCallback2.Run (MethodCallback1_2.DoRun body) · e0 e1)
        obj m (b0, e0, e1)) ∧
    (∀ (C M E A0 Arg0 Arg1 : Type)
        (body : M → A0 × Arg0 × Arg1 → C → MethodResult Unit E C)
        (obj : Ptr) (m : M) (b0 : A0) (e0 : Arg0) (e1 : Arg1),
      TargetNotOwned body (⟨obj, m, b0⟩ : MethodCallback1_2 M A0)
        (BaseCallback2_void.Run (MethodCallback1_2.DoRun body) · e0 e1)
        obj m (b0, e0, e1)) ∧
    (∀ (C M R E Arg0 Arg1 Arg2 Arg3 : Type)
        (body : M → Arg0 × Arg1 × Arg2 × Arg3 → C → MethodResult R E C)
        (obj : Ptr) (m : M) (e0 : Arg0) (e1 : Arg1) (e2 : Arg2) (e3 : Arg3),
      TargetNotOwned body (⟨obj, m⟩ : MethodCallback0_4 M)
        (BaseCallback4.Run (MethodCallback0_4.DoRun body) · e0 e1 e2 e3)
        obj m (e0, e1, e2, e3)) ∧
    (∀ (C M E Arg0 Arg1 Arg2 Arg3 : Type)
        (body : M → Arg0 × Arg1 × Arg2 × Arg3 → C → MethodResult Unit E C)
        (obj : Ptr) (m : M) (e0 : Arg0) (e1 : Arg1) (e2 : Arg2) (e3 : Arg3),
      TargetNotOwned body (⟨obj, m⟩ : MethodCallback0_4 M)
        (BaseCallback4_void.Run (MethodCallback0_4.DoRun body) · e0 e1 e2 e3)
        obj m (e0, e1, e2, e3)) :=
  ⟨fun _ _ _ _ _ body obj m e0 =>
     (MethodCallback0_1_models body obj m).targetNotOwned e0,
   fun _ _ _ _ body obj m e0 =>
     (MethodCallback0_1_models_void body obj m).targetNotOwned e0,
   fun _ _ _ _ _ _ body obj m b0 e0 =>
     (MethodCallback1_1_models body obj m b0).targetNotOwned e0,
   fun _ _ _ _ _ body obj m b0 e0 =>
     (MethodCallback1_1_models_void body obj m b0).targetNotOwned e0,
   fun _ _ _ _ _ _ _ body obj m b0 b1 e0 =>
     (MethodCallback2_1_models body obj m b0 b1).targetNotOwned e0,
   fun _ _ _ _ _ _ body obj m b0 b1 e0 =>
     (MethodCallback2_1_models_void body obj m b0 b1).targetNotOwned e0,
   fun _ _ _ _ _ _ _ _ body obj m b0 b1 b2 e0 =>
     (MethodCallback3_1_models body obj m b0 b1 b2).targetNotOwned e0,
   fun _ _ _ _ _ _ _ body obj m b0 b1 b2 e0 =>
     (MethodCallback3_1_models_void body obj m b0 b1 b2).targetNotOwned e0,
   fun _ _ _ _ _ _ body obj m e0 e1 =>
     (MethodCallback0_2_models body obj m).targetNotOwned (e0, e1),
   fun _ _ _ _ _ body obj m e0 e1 =>
     (MethodCallback0_2_models_void body obj m).targetNotOwned (e0, e1),
   fun _ _ _ _ _ _ _ body obj m b0 e0 e1 =>
     (MethodCallback1_2_models body obj m b0).targetNotOwned (e0, e1),
   fun _ _ _ _ _ _ body obj m b0 e0 e1 =>
     (MethodCallback1_2_models_void body obj m b0).targetNotOwned (e0, e1),
   fun _ _ _ _ _ _ _ _ body obj m e0 e1 e2 e3 =>
     (MethodCallback0_4_models body obj m).targetNotOwned (e0, e1, e2, e3),
   fun _ _ _ _ _ _ _ body obj m e0 e1 e2 e3 =>
     (MethodCallback0_4_models_void body obj m).targetNotOwned (e0, e1, e2, e3)⟩

/-- C7 (amended): each `NewCallback` overload creates a repeatable method callback, one that `Run`
does not delete: `Run` ends as the method ends, makes the one call of the method and releases
nothing, and the adapter stays in the store with the data members it was created with.  Each
combination is stated for a return type other than `void` and for `void`. -/
theorem NewCallback_survives_Run :
    (∀ (C M R E Arg0 : Type)
        (body : M → Arg0 → C → MethodResult R E C)
        (obj : Ptr) (m : M) (e0 : Arg0),
      SurvivesRun body (NewCallback0_1 · obj m)
        (BaseCallback1.Run (MethodCallback0_1.DoRun body) · e0)
        obj m e0) ∧
    (∀ (C M E Arg0 : Type)
        (body : M → Arg0 → C → MethodResult Unit E C)
        (obj : Ptr) (m : M) (e0 : Arg0),
      SurvivesRun body (NewCallback0_1 · obj m)
        (BaseCallback1_void.Run (MethodCallback0_1.DoRun body) · e0)
        obj m e0) ∧
    (∀ (C M R E A0 Arg0 : Type)
        (body : M → A0 × Arg0 → C → MethodResult R E C)
        (obj : Ptr) (m : M) (b0 : A0) (e0 : Arg0),
      SurvivesRun body (NewCallback1_1 · obj m b0)
        (BaseCallback1.Run (MethodCallback1_1.DoRun body) · e0)
        obj m (b0, e0)) ∧
    (∀ (C M E A0 Arg0 : Type)
        (body : M → A0 × Arg0 → C → MethodResult Unit E C)
        (obj : Ptr) (m : M) (b0 : A0) (e0 : Arg0),
      SurvivesRun body (NewCallback1_1 · obj m b0)
        (BaseCallback1_void.Run (MethodCallback1_1.DoRun body) · e0)
        obj m (b0, e0)) ∧
    (∀ (C M R E A0 A1 Arg0 : Type)
        (body : M → A0 × A1 × Arg0 → C → MethodResult R E C)
        (obj : Ptr) (m : M) (b0 : A0) (b1 : A1) (e0 : Arg0),
      SurvivesRun body (NewCallback2_1 · obj m b0 b1)
        (BaseCallback1.Run (MethodCallback2_1.DoRun body) · e0)
        obj m (b0, b1, e0)) ∧
    (∀ (C M E A0 A1 Arg0 : Type)
        (body : M → A0 × A1 × Arg0 → C → MethodResult Unit E C)
        (obj : Ptr) (m : M) (b0 : A0) (b1 : A1) (e0 : Arg0),
      SurvivesRun body (NewCallback2_1 · obj m b0 b1)
        (BaseCallback1_void.Run (MethodCallback2_1.DoRun body) · e0)
        obj m (b0, b1, e0)) ∧
    (∀ (C M R E A0 A1 A2 Arg0 : Type)
        (body : M → A0 × A1 × A2 × Arg0 → C → MethodResult R E C)
        (obj : Ptr) (m : M) (b0 : A0) (b1 : A1) (b2 : A2) (e0 : Arg0),
      SurvivesRun body (NewCallback3_1 · obj m b0 b1 b2)
        (BaseCallback1.Run (MethodCallback3_1.DoRun body) · e0)
        obj m (b0, b1, b2, e0)) ∧
    (∀ (C M E A0 A1 A2 Arg0 : Type)
        (body : M → A0 × A1 × A2 × Arg0 → C → MethodResult Unit E C)
        (obj : Ptr) (m : M) (b0 : A0) (b1 : A1) (b2 : A2) (e0 : Arg0),
      SurvivesRun body (NewCallback3_1 · obj m b0 b1 b2)
        (BaseCallback1_void.Run (MethodCallback3_1.DoRun body) · e0)
        obj m (b0, b1, b2, e0)) ∧
    (∀ (C M R E Arg0 Arg1 : Type)
        (body : M → Arg0 × Arg1 → C → MethodResult R E C)
        (obj : Ptr) (m : M) (e0 : Arg0) (e1 : Arg1),
      SurvivesRun body (NewCallback0_2 · obj m)
        (BaseCallback2.Run (MethodCallback0_2.DoRun body) · e0 e1)
        obj m (e0, e1)) ∧
    (∀ (C M E Arg0 Arg1 : Type)
        (body : M → Arg0 × Arg1 → C → MethodResult Unit E C)
        (obj : Ptr) (m : M) (e0 : Arg0) (e1 : Arg1),
      SurvivesRun body (NewCallback0_2 · obj m)
        (BaseCallback2_void.Run (MethodCallback0_2.DoRun body) · e0 e1)
        obj m (e0, e1)) ∧
    (∀ (C M R E A0 Arg0 Arg1 : Type)
        (body : M → A0 × Arg0 × Arg1 → C → MethodResult R E C)
        (obj : Ptr) (m : M) (b0 : A0) (e0 : Arg0) (e1 : Arg1),
      SurvivesRun body (NewCallback1_2 · obj m b0)
        (BaseCallback2.Run (MethodCallback1_2.DoRun body) · e0 e1)
        obj m (b0, e0, e1)) ∧
    (∀ (C M E A0 Arg0 Arg1 : Type)
        (body : M → A0 × Arg0 × Arg1 → C → MethodResult Unit E C)
        (obj : Ptr) (m : M) (b0 : A0) (e0 : Arg0) (e1 : Arg1),
      SurvivesRun body (NewCallback1_2 · obj m b0)
        (BaseCallback2_void.Run (MethodCallback1_2.DoRun body) · e0 e1)
        obj m (b0, e0, e1)) ∧
    (∀ (C M R E Arg0 Arg1 Arg2 Arg3 : Type)
        (body : M → Arg0 × Arg1 × Arg2 × Arg3 → C → MethodResult R E C)
        (obj : Ptr) (m : M) (e0 : Arg0) (e1 : Arg1) (e2 : Arg2) (e3 : Arg3),
      SurvivesRun body (NewCallback0_4 · obj m)
        (BaseCallback4.Run (MethodCallback0_4.DoRun body) · e0 e1 e2 e3)
        obj m (e0, e1, e2, e3)) ∧
    (∀ (C M E Arg0 Arg1 Arg2 Arg3 : Type)
        (body : M → Arg0 × Arg1 × Arg2 × Arg3 → C → MethodResult Unit E C)
        (obj : Ptr) (m : M) (e0 : Arg0) (e1 : Arg1) (e2 : Arg2) (e3 : Arg3),
      SurvivesRun body (NewCallback0_4 · obj m)
        (BaseCallback4_void.Run (MethodCallback0_4.DoRun body) · e0 e1 e2 e3)
        obj m (e0, e1, e2, e3)) :=
  ⟨fun _ _ _ _ _ body obj m e0 =>
     (MethodCallback0_1_models body obj m).survivesRun (fun _ => rfl) e0,
   fun _ _ _ _ body obj m e0 =>
     (MethodCallback0_1_models_void body obj m).survivesRun (fun _ => rfl) e0,
   fun _ _ _ _ _ _ body obj m b0 e0 =>
     (MethodCallback1_1_models body obj m b0).survivesRun (fun _ => rfl) e0,
   fun _ _ _ _ _ body obj m b0 e0 =>
     (MethodCallback1_1_models_void body obj m b0).survivesRun (fun _ => rfl) e0,
   fun _ _ _ _ _ _ _ body obj m b0 b1 e0 =>
     (MethodCallback2_1_models body obj m b0 b1).survivesRun (fun _ => rfl) e0,
   fun _ _ _ _ _ _ body obj m b0 b1 e0 =>
     (MethodCallback2_1_models_void body obj m b0 b1).survivesRun (fun _ => rfl) e0,
   fun _ _ _ _ _ _ _ _ body obj m b0 b1 b2 e0 =>
     (MethodCallback3_1_models body obj m b0 b1 b2).survivesRun (fun _ => rfl) e0,
   fun _ _ _ _ _ _ _ body obj m b0 b1 b2 e0 =>
     (MethodCallback3_1_models_void body obj m b0 b1 b2).survivesRun (fun _ => rfl) e0,
   fun _ _ _ _ _ _ body obj m e0 e1 =>
     (MethodCallback0_2_models body obj m).survivesRun (fun _ => rfl) (e0, e1),
   fun _ _ _ _ _ body obj m e0 e1 =>
     (MethodCallback0_2_models_void body obj m).survivesRun (fun _ => rfl) (e0, e1),
   fun _ _ _ _ _ _ _ body obj m b0 e0 e1 =>
     (MethodCallback1_2_models body obj m b0).survivesRun (fun _ => rfl) (e0, e1),
   fun _ _ _ _ _ _ body obj m b0 e0 e1 =>
     (MethodCallback1_2_models_void body obj m b0).survivesRun (fun _ => rfl) (e0, e1),
   fun _ _ _ _ _ _ _ _ body obj m e0 e1 e2 e3 =>
     (MethodCallback0_4_models body obj m).survivesRun (fun _ => rfl) (e0, e1, e2, e3),
   fun _ _ _ _ _ _ _ body obj m e0 e1 e2 e3 =>
     (MethodCallback0_4_models_void body obj m).survivesRun (fun _ => rfl) (e0, e1, e2, e3)⟩

/-- C8: for each supported combination and inputs on which the method returns normally, the
adapters made by `NewCallback` and by `NewSingleCallback` from the same inputs hold the same data
members, make the same call of the method and return the same value from their first `Run`; the
only difference is that the single use adapter has been deleted afterwards and the repeatable one
has not.  Each combination is stated for a return type other than `void` and for `void`. -/
theorem NewCallback_NewSingleCallback_same_first_Run :
    (∀ (C M R E Arg0 : Type)
        (body : M → Arg0 → C → MethodResult R E C)
        (obj : Ptr) (m : M) (e0 : Arg0),
      SameFirstRun body (NewCallback0_1 · obj m) (NewSingleCallback0_1 · obj m)
        (BaseCallback1.Run (MethodCallback0_1.DoRun body) · e0)
        obj m e0) ∧
    (∀ (C M E Arg0 : Type)
        (body : M → Arg0 → C → MethodResult Unit E C)
        (obj : Ptr) (m : M) (e0 : Arg0),
      SameFirstRun body (NewCallback0_1 · obj m) (NewSingleCallback0_1 · obj m)
        (BaseCallback1_void.Run (MethodCallback0_1.DoRun body) · e0)
        obj m e0) ∧
    (∀ (C M R E A0 Arg0 : Type)
        (body : M → A0 × Arg0 → C → MethodResult R E C)
        (obj : Ptr) (m : M) (b0 : A0) (e0 : Arg0),
      SameFirstRun body (NewCallback1_1 · obj m b0) (NewSingleCallback1_1 · obj m b0)
        (BaseCallback1.Run (MethodCallback1_1.DoRun body) · e0)
        obj m (b0, e0)) ∧
    (∀ (C M E A0 Arg0 : Type)
        (body : M → A0 × Arg0 → C → MethodResult Unit E C)
        (obj : Ptr) (m : M) (b0 : A0) (e0 : Arg0),
      SameFirstRun body (NewCallback1_1 · obj m b0) (NewSingleCallback1_1 · obj m b0)
        (BaseCallback1_void.Run (MethodCallback1_1.DoRun body) · e0)
        obj m (b0, e0)) ∧
    (∀ (C M R E A0 A1 Arg0 : Type)
        (body : M → A0 × A1 × Arg0 → C → MethodResult R E C)
        (obj : Ptr) (m : M) (b0 : A0) (b1 : A1) (e0 : Arg0),
      SameFirstRun body (NewCallback2_1 · obj m b0 b1) (NewSingleCallback2_1 · obj m b0 b1)
        (BaseCallback1.Run (MethodCallback2_1.DoRun body) · e0)
        obj m (b0, b1, e0)) ∧
    (∀ (C M E A0 A1 Arg0 : Type)
        (body : M → A0 × A1 × Arg0 → C → MethodResult Unit E C)
        (obj : Ptr) (m : M) (b0 : A0) (b1 : A1) (e0 : Arg0),
      SameFirstRun body (NewCallback2_1 · obj m b0 b1) (NewSingleCallback2_1 · obj m b0 b1)
        (BaseCallback1_void.Run (MethodCallback2_1.DoRun body) · e0)
        obj m (b0, b1, e0)) ∧
    (∀ (C M R E A0 A1 A2 Arg0 : Type)
        (body : M → A0 × A1 × A2 × Arg0 → C → MethodResult R E C)
        (obj : Ptr) (m : M) (b0 : A0) (b1 : A1) (b2 : A2) (e0 : Arg0),
      SameFirstRun body (NewCallback3_1 · obj m b0 b1 b2) (NewSingleCallback3_1 · obj m b0 b1 b2)
        (BaseCallback1.Run (MethodCallback3_1.DoRun body) · e0)
        obj m (b0, b1, b2, e0)) ∧
    (∀ (C M E A0 A1 A2 Arg0 : Type)
        (body : M → A0 × A1 × A2 × Arg0 → C → MethodResult Unit E C)
        (obj : Ptr) (m : M) (b0 : A0) (b1 : A1) (b2 : A2) (e0 : Arg0),
      SameFirstRun body (NewCallback3_1 · obj m b0 b1 b2) (NewSingleCallback3_1 · obj m b0 b1 b2)
        (BaseCallback1_void.Run (MethodCallback3_1.DoRun body) · e0)
        obj m (b0, b1, b2, e0)) ∧
    (∀ (C M R E Arg0 Arg1 : Type)
        (body : M → Arg0 × Arg1 → C → MethodResult R E C)
        (obj : Ptr) (m : M) (e0 : Arg0) (e1 : Arg1),
      SameFirstRun body (NewCallback0_2 · obj m) (NewSingleCallback0_2 · obj m)
        (BaseCallback2.Run (MethodCallback0_2.DoRun body) · e0 e1)
        obj m (e0, e1)) ∧
    (∀ (C M E Arg0 Arg1 : Type)
        (body : M → Arg0 × Arg1 → C → MethodResult Unit E C)
        (obj : Ptr) (m : M) (e0 : Arg0) (e1 : Arg1),
      SameFirstRun body (NewCallback0_2 · obj m) (NewSingleCallback0_2 · obj m)
        (BaseCallback2_void.Run (MethodCallback0_2.DoRun body) · e0 e1)
        obj m (e0, e1)) ∧
    (∀ (C M R E A0 Arg0 Arg1 : Type)
        (body : M → A0 × Arg0 × Arg1 → C → MethodResult R E C)
        (obj : Ptr) (m : M) (b0 : A0) (e0 : Arg0) (e1 : Arg1),
      SameFirstRun body (NewCallback1_2 · obj m b0) (NewSingleCallback1_2 · obj m b0)
        (BaseCallback2.Run (MethodCallback1_2.DoRun body) · e0 e1)
        obj m (b0, e0, e1)) ∧
    (∀ (C M E A0 Arg0 Arg1 : Type)
        (body : M → A0 × Arg0 × Arg1 → C → MethodResult Unit E C)
        (obj : Ptr) (m : M) (b0 : A0) (e0 : Arg0) (e1 : Arg1),
      SameFirstRun body (NewCallback1_2 · obj m b0) (NewSingleCallback1_2 · obj m b0)
        (BaseCallback2_void.Run (MethodCallback1_2.DoRun body) · e0 e1)
        obj m (b0, e0, e1)) ∧
    (∀ (C M R E Arg0 Arg1 Arg2 Arg3 : Type)
        (body : M → Arg0 × Arg1 × Arg2 × Arg3 → C → MethodResult R E C)
        (obj : Ptr) (m : M) (e0 : Arg0) (e1 : Arg1) (e2 : Arg2) (e3 : Arg3),
      SameFirstRun body (NewCallback0_4 · obj m) (NewSingleCallback0_4 · obj m)
        (BaseCallback4.Run (MethodCallback0_4.DoRun body) · e0 e1 e2 e3)
        obj m (e0, e1, e2, e3)) ∧
    (∀ (C M E Arg0 Arg1 Arg2 Arg3 : Type)
        (body : M → Arg0 × Arg1 × Arg2 × Arg3 → C → MethodResult Unit E C)
        (obj : Ptr) (m : M) (e0 : Arg0) (e1 : Arg1) (e2 : Arg2) (e3 : Arg3),
      SameFirstRun body (NewCallback0_4 · obj m) (NewSingleCallback0_4 · obj m)
        (BaseCallback4_void.Run (MethodCallback0_4.DoRun body) · e0 e1 e2 e3)
        obj m (e0, e1, e2, e3)) :=
  ⟨fun _ _ _ _ _ body obj m e0 =>
     (MethodCallback0_1_models body obj m).sameFirstRun
       (fun _ => rfl) (fun _ => rfl) e0,
   fun _ _ _ _ body obj m e0 =>
     (MethodCallback0_1_models_void body obj m).sameFirstRun
       (fun _ => rfl) (fun _ => rfl) e0,
   fun _ _ _ _ _ _ body obj m b0 e0 =>
     (MethodCallback1_1_models body obj m b0).sameFirstRun
       (fun _ => rfl) (fun _ => rfl) e0,
   fun _ _ _ _ _ body obj m b0 e0 =>
     (MethodCallback1_1_models_void body obj m b0).sameFirstRun
       (fun _ => rfl) (fun _ => rfl) e0,
   fun _ _ _ _ _ _ _ body obj m b0 b1 e0 =>
     (MethodCallback2_1_models body obj m b0 b1).sameFirstRun
       (fun _ => rfl) (fun _ => rfl) e0,
   fun _ _ _ _ _ _ body obj m b0 b1 e0 =>
     (MethodCallback2_1_models_void body obj m b0 b1).sameFirstRun
       (fun _ => rfl) (fun _ => rfl) e0,
   fun _ _ _ _ _ _ _ _ body obj m b0 b1 b2 e0 =>
     (MethodCallback3_1_models body obj m b0 b1 b2).sameFirstRun
       (fun _ => rfl) (fun _ => rfl) e0,
   fun _ _ _ _ _ _ _ body obj m b0 b1 b2 e0 =>
     (MethodCallback3_1_models_void body obj m b0 b1 b2).sameFirstRun
       (fun _ => rfl) (fun _ => rfl) e0,
   fun _ _ _ _ _ _ body obj m e0 e1 =>
     (MethodCallback0_2_models body obj m).sameFirstRun
       (fun _ => rfl) (fun _ => rfl) (e0, e1),
   fun _ _ _ _ _ body obj m e0 e1 =>
     (MethodCallback0_2_models_void body obj m).sameFirstRun
       (fun _ => rfl) (fun _ => rfl) (e0, e1),
   fun _ _ _ _ _ _ _ body obj m b0 e0 e1 =>
     (MethodCallback1_2_models body obj m b0).sameFirstRun
       (fun _ => rfl) (fun _ => rfl) (e0, e1),
   fun _ _ _ _ _ _ body obj m b0 e0 e1 =>
     (MethodCallback1_2_models_void body obj m b0).sameFirstRun
       (fun _ => rfl) (fun _ => rfl) (e0, e1),
   fun _ _ _ _ _ _ _ _ body obj m e0 e1 e2 e3 =>
     (MethodCallback0_4_models body obj m).sameFirstRun
       (fun _ => rfl) (fun _ => rfl) (e0, e1, e2, e3),
   fun _ _ _ _ _ _ _ body obj m e0 e1 e2 e3 =>
     (MethodCallback0_4_models_void body obj m).sameFirstRun
       (fun _ => rfl) (fun _ => rfl) (e0, e1, e2, e3)⟩

/-- C10: for each single use adapter, with a return type other than `void` and with `void`: when
the method throws, `Run` throws the same exception, the `delete this` step is not executed, and
the adapter is left in the store, unreleased. -/
theorem single_use_throw_skips_release :
    (∀ (C M R E Arg0 : Type)
        (body : M → Arg0 → C → MethodResult R E C)
        (obj : Ptr) (m : M) (e0 : Arg0),
      ThrowSkipsRelease body (NewSingleCallback0_1 · obj m)
        (BaseCallback1.Run (MethodCallback0_1.DoRun body) · e0)
        obj m e0) ∧
    (∀ (C M E Arg0 : Type)
        (body : M → Arg0 → C → MethodResult Unit E C)
        (obj : Ptr) (m : M) (e0 : Arg0),
      ThrowSkipsRelease body (NewSingleCallback0_1 · obj m)
        (BaseCallback1_void.Run (MethodCallback0_1.DoRun body) · e0)
        obj m e0) ∧
    (∀ (C M R E A0 Arg0 : Type)
        (body : M → A0 × Arg0 → C → MethodResult R E C)
        (obj : Ptr) (m : M) (b0 : A0) (e0 : Arg0),
      ThrowSkipsRelease body (NewSingleCallback1_1 · obj m b0)
        (BaseCallback1.Run (MethodCallback1_1.DoRun body) · e0)
        obj m (b0, e0)) ∧
    (∀ (C M E A0 Arg0 : Type)
        (body : M → A0 × Arg0 → C → MethodResult Unit E C)
        (obj : Ptr) (m : M) (b0 : A0) (e0 : Arg0),
      ThrowSkipsRelease body (NewSingleCallback1_1 · obj m b0)
        (BaseCallback1_void.Run (MethodCallback1_1.DoRun body) · e0)
        obj m (b0, e0)) ∧
    (∀ (C M R E A0 A1 Arg0 : Type)
        (body : M → A0 × A1 × Arg0 → C → MethodResult R E C)
        (obj : Ptr) (m : M) (b0 : A0) (b1 : A1) (e0 : Arg0),
      ThrowSkipsRelease body (NewSingleCallback2_1 · obj m b0 b1)
        (BaseCallback1.Run (MethodCallback2_1.DoRun body) · e0)
        obj m (b0, b1, e0)) ∧
    (∀ (C M E A0 A1 Arg0 : Type)
        (body : M → A0 × A1 × Arg0 → C → MethodResult Unit E C)
        (obj : Ptr) (m : M) (b0 : A0) (b1 : A1) (e0 : Arg0),
      ThrowSkipsRelease body (NewSingleCallback2_1 · obj m b0 b1)
        (BaseCallback1_void.Run (MethodCallback2_1.DoRun body) · e0)
        obj m (b0, b1, e0)) ∧
    (∀ (C M R E A0 A1 A2 Arg0 : Type)
        (body : M → A0 × A1 × A2 × Arg0 → C → MethodResult R E C)
        (obj : Ptr) (m : M) (b0 : A0) (b1 : A1) (b2 : A2) (e0 : Arg0),
      ThrowSkipsRelease body (NewSingleCallback3_1 · obj m b0 b1 b2)
        (BaseCallback1.Run (MethodCallback3_1.DoRun body) · e0)
        obj m (b0, b1, b2, e0)) ∧
    (∀ (C M E A0 A1 A2 Arg0 : Type)
        (body : M → A0 × A1 × A2 × Arg0 → C → MethodResult Unit E C)
        (obj : Ptr) (m : M) (b0 : A0) (b1 : A1) (b2 : A2) (e0 : Arg0),
      ThrowSkipsRelease body (NewSingleCallback3_1 · obj m b0 b1 b2)
        (BaseCallback1_void.Run (MethodCallback3_1.DoRun body) · e0)
        obj m (b0, b1, b2, e0)) ∧
    (∀ (C M R E Arg0 Arg1 : Type)
        (body : M → Arg0 × Arg1 → C → MethodResult R E C)
        (obj : Ptr) (m : M) (e0 : Arg0) (e1 : Arg1),
      ThrowSkipsRelease body (NewSingleCallback0_2 · obj m)
        (BaseCallback2.Run (MethodCallback0_2.DoRun body) · e0 e1)
        obj m (e0, e1)) ∧
    (∀ (C M E Arg0 Arg1 : Type)
        (body : M → Arg0 × Arg1 → C → MethodResult Unit E C)
        (obj : Ptr) (m : M) (e0 : Arg0) (e1 : Arg1),
      ThrowSkipsRelease body (NewSingleCallback0_2 · obj m)
        (BaseCallback2_void.Run (MethodCallback0_2.DoRun body) · e0 e1)
        obj m (e0, e1)) ∧
    (∀ (C M R E A0 Arg0 Arg1 : Type)
        (body : M → A0 × Arg0 × Arg1 → C → MethodResult R E C)
        (obj : Ptr) (m : M) (b0 : A0) (e0 : Arg0) (e1 : Arg1),
      ThrowSkipsRelease body (NewSingleCallback1_2 · obj m b0)
        (BaseCallback2.Run (MethodCallback1_2.DoRun body) · e0 e1)
        obj m (b0, e0, e1)) ∧
    (∀ (C M E A0 Arg0 Arg1 : Type)
        (body : M → A0 × Arg0 × Arg1 → C → MethodResult Unit E C)
        (obj : Ptr) (m : M) (b0 : A0) (e0 : Arg0) (e1 : Arg1),
      ThrowSkipsRelease body (NewSingleCallback1_2 · obj m b0)
        (BaseCallback2_void.Run (MethodCallback1_2.DoRun body) · e0 e1)
        obj m (b0, e0, e1)) ∧
    (∀ (C M R E Arg0 Arg1 Arg2 Arg3 : Type)
        (body : M → Arg0 × Arg1 × Arg2 × Arg3 → C → MethodResult R E C)
        (obj : Ptr) (m : M) (e0 : Arg0) (e1 : Arg1) (e2 : Arg2) (e3 : Arg3),
      ThrowSkipsRelease body (NewSingleCallback0_4 · obj m)
        (BaseCallback4.Run (MethodCallback0_4.DoRun body) · e0 e1 e2 e3)
        obj m (e0, e1, e2, e3)) ∧
    (∀ (C M E Arg0 Arg1 Arg2 Arg3 : Type)
        (body : M → Arg0 × Arg1 × Arg2 × Arg3 → C → MethodResult Unit E C)
        (obj : Ptr) (m : M) (e0 : Arg0) (e1 : Arg1) (e2 : Arg2) (e3 : Arg3),
      ThrowSkipsRelease body (NewSingleCallback0_4 · obj m)
        (BaseCallback4_void.Run (MethodCallback0_4.DoRun body) · e0 e1 e2 e3)
        obj m (e0, e1, e2, e3)) :=
  ⟨fun _ _ _ _ _ body obj m e0 =>
     (MethodCallback0_1_models body obj m).throwSkipsRelease (fun _ => rfl) e0,
   fun _ _ _ _ body obj m e0 =>
     (MethodCallback0_1_models_void body obj m).throwSkipsRelease (fun _ => rfl) e0,
   fun _ _ _ _ _ _ body obj m b0 e0 =>
     (MethodCallback1_1_models body obj m b0).throwSkipsRelease (fun _ => rfl) e0,
   fun _ _ _ _ _ body obj m b0 e0 =>
     (MethodCallback1_1_models_void body obj m b0).throwSkipsRelease (fun _ => rfl) e0,
   fun _ _ _ _ _ _ _ body obj m b0 b1 e0 =>
     (MethodCallback2_1_models body obj m b0 b1).throwSkipsRelease (fun _ => rfl) e0,
   fun _ _ _ _ _ _ body obj m b0 b1 e0 =>
     (MethodCallback2_1_models_void body obj m b0 b1).throwSkipsRelease (fun _ => rfl) e0,
   fun _ _ _ _ _ _ _ _ body obj m b0 b1 b2 e0 =>
     (MethodCallback3_1_models body obj m b0 b1 b2).throwSkipsRelease (fun _ => rfl) e0,
   fun _ _ _ _ _ _ _ body obj m b0 b1 b2 e0 =>
     (MethodCallback3_1_models_void body obj m b0 b1 b2).throwSkipsRelease (fun _ => rfl) e0,
   fun _ _ _ _ _ _ body obj m e0 e1 =>
     (MethodCallback0_2_models body obj m).throwSkipsRelease (fun _ => rfl) (e0, e1),
   fun _ _ _ _ _ body obj m e0 e1 =>
     (MethodCallback0_2_models_void body obj m).throwSkipsRelease (fun _ => rfl) (e0, e1),
   fun _ _ _ _ _ _ _ body obj m b0 e0 e1 =>
     (MethodCallback1_2_models body obj m b0).throwSkipsRelease (fun _ => rfl) (e0, e1),
   fun _ _ _ _ _ _ body obj m b0 e0 e1 =>
     (MethodCallback1_2_models_void body obj m b0).throwSkipsRelease (fun _ => rfl) (e0, e1),
   fun _ _ _ _ _ _ _ _ body obj m e0 e1 e2 e3 =>
     (MethodCallback0_4_models body obj m).throwSkipsRelease (fun _ => rfl) (e0, e1, e2, e3),
   fun _ _ _ _ _ _ _ body obj m e0 e1 e2 e3 =>
     (MethodCallback0_4_models_void body obj m).throwSkipsRelease (fun _ => rfl) (e0, e1, e2, e3)⟩


/-- C9: for `Callback1`, `Callback2` and `Callback4`, with any `DoRun` and any arguments, `Run` is
`DoRun` on the same arguments in the same order: same value, same effects. This holds of
`Callback::Run` itself and of the virtual call of `Run` on any object whose `Parent` is the
repeatable callback class, for a return type other than `void` and for `void`. -/
theorem Callback_Run_forwards_to_DoRun :
    (∀ (C Cb M Args R E Arg0 : Type)
        (DoRun : Ptr → Arg0 → World C Cb M Args → Outcome R E (World C Cb M Args))
        (DoRunVoid : Ptr → Arg0 → World C Cb M Args → Outcome Unit E (World C Cb M Args))
        (this : Ptr) (arg0 : Arg0) (w : World C Cb M Args),
      Callback1.Run DoRun this arg0 w = DoRun this arg0 w ∧
      ∀ fields : Cb, w.heap[this]? = some (Cell.callback Parent.Callback fields) →
        BaseCallback1.Run DoRun this arg0 w = DoRun this arg0 w ∧
        BaseCallback1_void.Run DoRunVoid this arg0 w = DoRunVoid this arg0 w) ∧
    (∀ (C Cb M Args R E Arg0 Arg1 : Type)
        (DoRun : Ptr → Arg0 → Arg1 → World C Cb M Args → Outcome R E (World C Cb M Args))
        (DoRunVoid : Ptr → Arg0 → Arg1 → World C Cb M Args →
          Outcome Unit E (World C Cb M Args))
        (this : Ptr) (arg0 : Arg0) (arg1 : Arg1) (w : World C Cb M Args),
      Callback2.Run DoRun this arg0 arg1 w = DoRun this arg0 arg1 w ∧
      ∀ fields : Cb, w.heap[this]? = some (Cell.callback Parent.Callback fields) →
        BaseCallback2.Run DoRun this arg0 arg1 w = DoRun this arg0 arg1 w ∧
        BaseCallback2_void.Run DoRunVoid this arg0 arg1 w = DoRunVoid this arg0 arg1 w) ∧
    (∀ (C Cb M Args R E Arg0 Arg1 Arg2 Arg3 : Type)
        (DoRun : Ptr → Arg0 → Arg1 → Arg2 → Arg3 → World C Cb M Args →
          Outcome R E (World C Cb M Args))
        (DoRunVoid : Ptr → Arg0 → Arg1 → Arg2 → Arg3 → World C Cb M Args →
          Outcome Unit E (World C Cb M Args))
        (this : Ptr) (arg0 : Arg0) (arg1 : Arg1) (arg2 : Arg2) (arg3 : Arg3)
        (w : World C Cb M Args),
      Callback4.Run DoRun this arg0 arg1 arg2 arg3 w = DoRun this arg0 arg1 arg2 arg3 w ∧
      ∀ fields : Cb, w.heap[this]? = some (Cell.callback Parent.Callback fields) →
        BaseCallback4.Run DoRun this arg0 arg1 arg2 arg3 w =
          DoRun this arg0 arg1 arg2 arg3 w ∧
        BaseCallback4_void.Run DoRunVoid this arg0 arg1 arg2 arg3 w =
          DoRunVoid this arg0 arg1 arg2 arg3 w) :=
  ⟨fun _ _ _ _ _ _ _ DoRun DoRunVoid this arg0 w =>
     ⟨rfl, fun _ h => ⟨BaseCallback1_Run_eq_finish DoRun h,
       (BaseCallback1_void_Run_eq DoRunVoid this arg0 w).trans
         (BaseCallback1_Run_eq_finish DoRunVoid h)⟩⟩,
   fun _ _ _ _ _ _ _ _ DoRun DoRunVoid this arg0 arg1 w =>
     ⟨rfl, fun _ h => ⟨BaseCallback2_Run_eq_finish DoRun h,
       (BaseCallback2_void_Run_eq DoRunVoid this arg0 arg1 w).trans
         (BaseCallback2_Run_eq_finish DoRunVoid h)⟩⟩,
   fun _ _ _ _ _ _ _ _ _ _ DoRun DoRunVoid this arg0 arg1 arg2 arg3 w =>
     ⟨rfl, fun _ h => ⟨BaseCallback4_Run_eq_finish DoRun h,
       (BaseCallback4_void_Run_eq DoRunVoid this arg0 arg1 arg2 arg3 w).trans
         (BaseCallback4_Run_eq_finish DoRunVoid h)⟩⟩⟩

/-! ## The claims at concrete inputs -/

/-- The method `Calc::add` bound with 10 and run with 5, through either factory: the one call made
is `add(10, 5)` and `Run` returns 15. -/
theorem Run_forwards_bound_then_exec_args_witness :
    (∃ w', BaseCallback1.Run (MethodCallback1_1.DoRun Calc.body) 1 5
        (NewCallback1_1 calcWorld 0 CalcMethod.add 10).2 = Outcome.returned 15 w' ∧
      w'.calls = [(0, CalcMethod.add, ((10 : Int), (5 : Int)))]) ∧
    (∃ w', BaseCallback1.Run (MethodCallback1_1.DoRun Calc.body) 1 5
        (NewSingleCallback1_1 calcWorld 0 CalcMethod.add 10).2 = Outcome.returned 15 w' ∧
      w'.calls = [(0, CalcMethod.add, ((10 : Int), (5 : Int)))]) :=
  ⟨(Run_forwards_bound_then_exec_args.2.2.1 Nat CalcMethod Int String Int Int Calc.body 0
      CalcMethod.add 10 5).1 calcWorld (NewCallback1_1 calcWorld 0 CalcMethod.add 10).2 0 1 15
      rfl rfl rfl,
   (Run_forwards_bound_then_exec_args.2.2.1 Nat CalcMethod Int String Int Int Calc.body 0
      CalcMethod.add 10 5).2 calcWorld (NewSingleCallback1_1 calcWorld 0 CalcMethod.add 10).2
      0 1 15 rfl rfl rfl⟩

/-- The scenario of the specification: `Calc::add` bound with 10, repeatable; `Run(5)` yields 15
and leaves the adapter in the store, and `Run(5)` then `Run(7)` yield 15 then 17. -/
theorem repeatable_Run_calls_method_each_time_witness :
    (∃ w1, runSeq (BaseCallback1.Run (MethodCallback1_1.DoRun Calc.body) 1) [5]
        (NewCallback1_1 calcWorld 0 CalcMethod.add 10).2 = Outcome.returned [15] w1 ∧
      w1.trace = [Event.call 0 CalcMethod.add ((10 : Int), (5 : Int))] ∧
      w1.heap[1]? = some (Cell.callback Parent.Callback ⟨0, CalcMethod.add, 10⟩)) ∧
    (∃ w2, runSeq (BaseCallback1.Run (MethodCallback1_1.DoRun Calc.body) 1) [5, 7]
        (NewCallback1_1 calcWorld 0 CalcMethod.add 10).2 = Outcome.returned [15, 17] w2 ∧
      w2.trace = [Event.call 0 CalcMethod.add ((10 : Int), (5 : Int)),
        Event.call 0 CalcMethod.add ((10 : Int), (7 : Int))] ∧
      w2.heap[1]? = some (Cell.callback Parent.Callback ⟨0, CalcMethod.add, 10⟩)) ∧
    (∃ w2, runSeq (BaseCallback1.Run (MethodCallback1_1.DoRun Calc.body) 1) [5, 7]
        (NewCallback1_1 calcWorld 0 CalcMethod.add 10).2 = Outcome.returned [15, 17] w2 ∧
      w2.heap[0]? = some (Cell.object 2)) :=
  have h := (repeatable_Run_calls_method_each_time.2.2.1 Nat CalcMethod Int String Int Int
    Calc.body 0 CalcMethod.add 10) calcWorld (NewCallback1_1 calcWorld 0 CalcMethod.add 10).2
    [5, 7] 0 2 [15, 17] rfl rfl rfl
  ⟨h.2.1 1, h.2.1 2, h.2.2⟩

/-- The method `Calc::add` bound with 10 as a single use callback and run with 5: one call
`add(10, 5)`, then the release of the adapter at address 1, and 15 returned. -/
theorem single_use_Run_calls_once_then_releases_witness :
    ∃ w', BaseCallback1.Run (MethodCallback1_1.DoRun Calc.body) 1 5
        (NewSingleCallback1_1 calcWorld 0 CalcMethod.add 10).2 = Outcome.returned 15 w' ∧
      w'.trace = [Event.call 0 CalcMethod.add ((10 : Int), (5 : Int)), Event.release 1] ∧
      w'.heap[1]? = some Cell.free :=
  (single_use_Run_calls_once_then_releases.2.1 Nat CalcMethod Int String Int Int Calc.body 0
    CalcMethod.add 10 5) calcWorld (NewSingleCallback1_1 calcWorld 0 CalcMethod.add 10).2 0 1 15
    rfl rfl rfl

/-- The scenario of the specification: `Logger::log` with no bound argument as a single use
callback, run with "hello": `log("hello")` is called exactly once, the adapter is released, and it
cannot be run again. -/
theorem void_single_use_Run_calls_once_then_releases_witness :
    ∃ w', BaseCallback1_void.Run (MethodCallback0_1.DoRun Logger.body) 1 "hello"
        (NewSingleCallback0_1 loggerWorld 0 LoggerMethod.log).2 = Outcome.returned () w' ∧
      w'.trace = [Event.call 0 LoggerMethod.log "hello", Event.release 1] ∧
      w'.heap[1]? = some Cell.free ∧
      w'.heap[0]? = some (Cell.object ["hello"]) ∧
      BaseCallback1_void.Run (MethodCallback0_1.DoRun Logger.body) 1 "hello" w' =
        Outcome.undefined :=
  (void_single_use_Run_calls_once_then_releases.1 (List String) LoggerMethod String String
    Logger.body 0 LoggerMethod.log "hello") loggerWorld
    (NewSingleCallback0_1 loggerWorld 0 LoggerMethod.log).2 [] ["hello"] rfl rfl rfl

/-- The method `Calc::add` bound with 10: both factories store `(0, add, 10)`; a repeatable
adapter holds them after `Run(5)`, `DoRun(7)`, `Run(1)`; a single use adapter still holds them, or
has been released, after `DoRun(5)`, `Run(7)`. -/
theorem bound_values_stored_and_immutable_witness :
    (NewCallback1_1 calcWorld 0 CalcMethod.add 10).2.heap[1]? =
      some (Cell.callback Parent.Callback ⟨0, CalcMethod.add, 10⟩) ∧
    (NewSingleCallback1_1 calcWorld 0 CalcMethod.add 10).2.heap[1]? =
      some (Cell.callback Parent.SingleUseCallback ⟨0, CalcMethod.add, 10⟩) ∧
    (∃ w', execOps (BaseCallback1.Run (MethodCallback1_1.DoRun Calc.body) 1)
        (MethodCallback1_1.DoRun Calc.body 1) [Op.Run 5, Op.DoRun 7, Op.Run 1]
        (NewCallback1_1 calcWorld 0 CalcMethod.add 10).2 = some w' ∧
      (w'.heap[1]? = some (Cell.callback Parent.Callback ⟨0, CalcMethod.add, 10⟩) ∨
        (Parent.Callback = Parent.SingleUseCallback ∧ w'.heap[1]? = some Cell.free))) ∧
    (∃ w', execOps (BaseCallback1.Run (MethodCallback1_1.DoRun Calc.body) 1)
        (MethodCallback1_1.DoRun Calc.body 1) [Op.DoRun 5, Op.Run 7]
        (NewSingleCallback1_1 calcWorld 0 CalcMethod.add 10).2 = some w' ∧
      (w'.heap[1]? = some (Cell.callback Parent.SingleUseCallback ⟨0, CalcMethod.add, 10⟩) ∨
        (Parent.SingleUseCallback = Parent.SingleUseCallback ∧
          w'.heap[1]? = some Cell.free))) :=
  have h := bound_values_stored_and_immutable.2.2.1 Nat CalcMethod Int String Int Int Calc.body
    0 CalcMethod.add 10
  ⟨h.1 calcWorld, h.2.1 calcWorld,
    ⟨⟨[Cell.object 3, Cell.callback Parent.Callback ⟨0, CalcMethod.add, 10⟩],
        [Event.call 0 CalcMethod.add (10, 5), Event.call 0 CalcMethod.add (10, 7),
          Event.call 0 CalcMethod.add (10, 1)]⟩, rfl,
      h.2.2 Parent.Callback (NewCallback1_1 calcWorld 0 CalcMethod.add 10).2 _ 1
        [Op.Run 5, Op.DoRun 7, Op.Run 1] rfl rfl⟩,
    ⟨⟨[Cell.object 2, Cell.free],
        [Event.call 0 CalcMethod.add (10, 5), Event.call 0 CalcMethod.add (10, 7),
          Event.release 1]⟩, rfl,
      h.2.2 Parent.SingleUseCallback (NewSingleCallback1_1 calcWorld 0 CalcMethod.add 10).2 _ 1
        [Op.DoRun 5, Op.Run 7] rfl rfl⟩⟩

/-- The method `Calc::add` bound with 10 as a single use callback at address 1, target at address
0: deleting the adapter leaves the target in state 0; `Run(5)` leaves it in state 1, the state in
which `add` left it, although the adapter has been released. -/
theorem adapter_does_not_own_target_witness :
    (∃ w', (NewSingleCallback1_1 calcWorld 0 CalcMethod.add 10).2.delete 1 = some w' ∧
      w'.heap[0]? = some (Cell.object 0) ∧
      ∀ q : Ptr, q ≠ 1 →
        w'.heap[q]? = (NewSingleCallback1_1 calcWorld 0 CalcMethod.add 10).2.heap[q]?) ∧
    ∃ w', (BaseCallback1.Run (MethodCallback1_1.DoRun Calc.body) 1 5
        (NewSingleCallback1_1 calcWorld 0 CalcMethod.add 10).2).world? = some w' ∧
      w'.heap[0]? = some (Cell.object 1) ∧
      ∀ q : Ptr, q ≠ 0 → q ≠ 1 →
        w'.heap[q]? = (NewSingleCallback1_1 calcWorld 0 CalcMethod.add 10).2.heap[q]? :=
  (adapter_does_not_own_target.2.2.1 Nat CalcMethod Int String Int Int Calc.body 0
    CalcMethod.add 10 5) Parent.SingleUseCallback
    (NewSingleCallback1_1 calcWorld 0 CalcMethod.add 10).2 1 0 rfl rfl

/-- C7, as stated, fails: `NewCallback(logger, &Logger::log)` run with "hello" returns with the
adapter still in the store at address 1, holding what it was created with; nothing was released.
-/
theorem NewCallback_is_not_single_use :
    BaseCallback1_void.Run (MethodCallback0_1.DoRun Logger.body) 1 "hello"
        (NewCallback0_1 loggerWorld 0 LoggerMethod.log).2 =
      Outcome.returned ()
        ⟨[Cell.object ["hello"], Cell.callback Parent.Callback ⟨0, LoggerMethod.log⟩],
          [Event.call 0 LoggerMethod.log "hello"]⟩ ∧
    ¬ DeletesItselfAfterRun (NewCallback0_1 · 0 LoggerMethod.log)
        (BaseCallback1_void.Run (MethodCallback0_1.DoRun Logger.body) · "hello") :=
  ⟨rfl, fun h => by
    have hfree := h loggerWorld
      ⟨[Cell.object ["hello"], Cell.callback Parent.Callback ⟨0, LoggerMethod.log⟩],
        [Event.call 0 LoggerMethod.log "hello"]⟩ () rfl
    simp [NewCallback0_1, World.new, loggerWorld] at hfree⟩

/-- The adapter `NewCallback(calc, &Calc::add, 10)` run with 5 returns 15 and the adapter is still
in the store with nothing released; run with `div` and 0 it throws and the adapter is still there.
-/
theorem NewCallback_survives_Run_witness :
    (∃ w', (BaseCallback1.Run (MethodCallback1_1.DoRun Calc.body) 1 5
        (NewCallback1_1 calcWorld 0 CalcMethod.add 10).2).world? = some w' ∧
      (∀ r s', Calc.body CalcMethod.add (10, 5) 0 = MethodResult.returned r s' →
        BaseCallback1.Run (MethodCallback1_1.DoRun Calc.body) 1 5
          (NewCallback1_1 calcWorld 0 CalcMethod.add 10).2 = Outcome.returned r w') ∧
      (∀ exc s', Calc.body CalcMethod.add (10, 5) 0 = MethodResult.threw exc s' →
        BaseCallback1.Run (MethodCallback1_1.DoRun Calc.body) 1 5
          (NewCallback1_1 calcWorld 0 CalcMethod.add 10).2 = Outcome.threw exc w') ∧
      w'.trace = [Event.call 0 CalcMethod.add ((10 : Int), (5 : Int))] ∧
      w'.releases = [] ∧
      w'.heap[1]? = some (Cell.callback Parent.Callback ⟨0, CalcMethod.add, 10⟩)) :=
  (NewCallback_survives_Run.2.2.1 Nat CalcMethod Int String Int Int Calc.body 0 CalcMethod.add
    10 5) calcWorld (NewCallback1_1 calcWorld 0 CalcMethod.add 10).2 0 rfl rfl

/-- The method `Calc::add` bound with 10 through both factories and run with 5: both return 15
after the one call `add(10, 5)`, and deleting the repeatable adapter afterwards gives exactly the
world the single use adapter left. -/
theorem NewCallback_NewSingleCallback_same_first_Run_witness :
    ∃ wc ws,
      BaseCallback1.Run (MethodCallback1_1.DoRun Calc.body) 1 5
        (NewCallback1_1 calcWorld 0 CalcMethod.add 10).2 = Outcome.returned 15 wc ∧
      BaseCallback1.Run (MethodCallback1_1.DoRun Calc.body) 1 5
        (NewSingleCallback1_1 calcWorld 0 CalcMethod.add 10).2 = Outcome.returned 15 ws ∧
      wc.calls = [(0, CalcMethod.add, ((10 : Int), (5 : Int)))] ∧
      ws.calls = [(0, CalcMethod.add, ((10 : Int), (5 : Int)))] ∧
      wc.releases = [] ∧ ws.releases = [1] ∧ wc.delete 1 = some ws :=
  ((NewCallback_NewSingleCallback_same_first_Run.2.2.1 Nat CalcMethod Int String Int Int
    Calc.body 0 CalcMethod.add 10 5) calcWorld 0 1 15 rfl rfl).2.2

/-- A repeatable `Calc::add` adapter at address 1: the virtual call of `Run` with 5 is `DoRun`
with 5. -/
theorem Callback_Run_forwards_to_DoRun_witness :
    BaseCallback1.Run (MethodCallback1_1.DoRun Calc.body) 1 5
        (NewCallback1_1 calcWorld 0 CalcMethod.add 10).2 =
      MethodCallback1_1.DoRun Calc.body 1 5
        (NewCallback1_1 calcWorld 0 CalcMethod.add 10).2 :=
  ((Callback_Run_forwards_to_DoRun.1 Nat (MethodCallback1_1 CalcMethod Int) CalcMethod
    (Int × Int) Int String Int (MethodCallback1_1.DoRun Calc.body)
    (fun _ _ _ => Outcome.undefined) 1 5 (NewCallback1_1 calcWorld 0 CalcMethod.add 10).2).2
    ⟨0, CalcMethod.add, 10⟩ rfl).1

/-- The method `Calc::div` bound with 10 as a single use callback and run with 0: `Run` throws
what `div` threw, only the call is recorded, and the adapter is still in the store. -/
theorem single_use_throw_skips_release_witness :
    ∃ w', BaseCallback1.Run (MethodCallback1_1.DoRun Calc.body) 1 0
        (NewSingleCallback1_1 calcWorld 0 CalcMethod.div 10).2 =
        Outcome.threw "division by zero" w' ∧
      w'.trace = [Event.call 0 CalcMethod.div ((10 : Int), (0 : Int))] ∧
      w'.heap[1]? = some (Cell.callback Parent.SingleUseCallback ⟨0, CalcMethod.div, 10⟩) :=
  (single_use_throw_skips_release.2.2.1 Nat CalcMethod Int String Int Int Calc.body 0
    CalcMethod.div 10 0) calcWorld (NewSingleCallback1_1 calcWorld 0 CalcMethod.div 10).2 0 1
    "division by zero" rfl rfl rfl

end ola
